import Mathlib

/-!
# GLRenderManager: the recording side of the deferred GL command engine

A shallow embedding of `Common/GPU/OpenGL/GLRenderManager.h`.

* Heap objects created with `new` live in typed stores (`Heap`); a pointer is
  `Option Nat`, `none` being `nullptr`.
* The build modelled is the one in which `_dbg_assert_` is compiled in, that
  is the `_DEBUG` build: the `#ifdef _DEBUG` members (`curProgram_`) are part
  of the state.  A failed assertion ends the call with the `Violation` naming
  the assertion; no successor state exists then.
* Floats are only copied by the recording code and are kept as bit patterns.
-/

namespace GLRender

/-! ## Scalars and pointers -/

/-- A pointer: `none` is `nullptr`, `some a` the object at address `a`. -/
abbrev Ptr := Option Nat

/-- The C++ `nullptr`. -/
abbrev nullptr : Ptr := none

/-- `GLenum`, `GLuint`: unsigned 32-bit values. -/
abbrev GLenum := Nat

/-- A `float`, kept as its IEEE-754 bit pattern. -/
abbrev FloatBits := Nat

/-- A C string argument (`const char *`); `none` is `nullptr`. -/
abbrev CStr := Option String

/-- Modelled from the spec: `Draw::DataFormat` is declared in a header that is not
part of the excerpt; the value is only stored, so it is kept as its number. -/
abbrev DataFormat := Nat

/-- Modelled from the spec: `GLRAllocType` is declared in GLQueueRunner.h, which is
not part of the excerpt; the value is only stored, so it is kept as its number. -/
abbrev GLRAllocType := Nat

/-- Modelled from the spec: `Draw::DeviceCaps` is declared outside the excerpt; the
recording code only passes it on to constructors. -/
abbrev DeviceCaps := Nat

/-- `constexpr int MAX_GL_TEXTURE_SLOTS = 8;` -/
def MAX_GL_TEXTURE_SLOTS : Int := 8

/-- `enum { MAX_INFLIGHT_FRAMES = 3 };` -/
abbrev MAX_INFLIGHT_FRAMES : Nat := 3

/-- Width of `size_t` in bits. -/
def SIZE_BITS : Nat := 64

/-- The conversion `(int)x` of a `size_t`: keep the low 32 bits, two's complement. -/
def castInt (x : Nat) : Int :=
  if x % 2 ^ 32 < 2 ^ 31 then (x % 2 ^ 32 : Nat) else ((x % 2 ^ 32 : Nat) : Int) - 2 ^ 32

/-- The 32-bit pattern of an `int` (what `memcpy` from its address copies). -/
def intBits (x : Int) : Nat := (x % 2 ^ 32).toNat

/-- Which check ended a call.  All but the last are assertions of the source. -/
inductive Violation
  /-- `curRenderStep_ && curRenderStep_->stepType == GLRStepType::RENDER` -/
  | openStep
  /-- `slot < MAX_GL_TEXTURE_SLOTS` -/
  | textureSlot
  /-- `program != nullptr` -/
  | nullProgram
  /-- `curProgram_` (only with `_DEBUG`) -/
  | noCurProgram
  /-- `shaders.size() <= ARRAY_SIZE(step.create_program.shaders)` -/
  | shaderCapacity
  /-- `shaders.size() > 0` -/
  | zeroShaders
  /-- `iter.name` (only with `_DEBUG`) -/
  | queryName
  /-- `sem.attrib` (only with `_DEBUG`) -/
  | semanticName
  /-- `offset >= 0` -/
  | offsetSign
  /-- `offset <= buffer->size_ - size` -/
  | bufferRange
  /-- `foundCount == 1` -/
  | foundCount
  /-- `state != state_` (ReplacedTexture::SetState) -/
  | sameState
  /-- Not an assertion: the call dereferences a pointer that holds no object. -/
  | badPointer
  deriving DecidableEq, Repr

/-! ## Steps and commands (GLQueueRunner.h) -/

/-- Modelled from the spec: `GLRStepType` is declared in GLQueueRunner.h, which is not
part of the excerpt; the kinds are those the spec lists for a step (render pass, copy,
blit, readback). -/
inductive GLRStepType
  | RENDER
  | COPY
  | BLIT
  | READBACK
  deriving DecidableEq, Repr

/-- Modelled from the spec: `GLRRenderCommand` is declared in GLQueueRunner.h, which is
not part of the excerpt; these are the command types the header names. -/
inductive GLRRenderCommand
  | DEPTH
  | STENCILFUNC
  | STENCILOP
  | BLEND
  | BLENDCOLOR
  | LOGICOP
  | UNIFORM4I
  | UNIFORM4UI
  | UNIFORM4F
  | UNIFORMMATRIX
  | UNIFORMSTEREOMATRIX
  | TEXTURESAMPLER
  | TEXTURELOD
  | VIEWPORT
  | SCISSOR
  | RASTER
  | CLEAR
  | BINDPROGRAM
  | BINDTEXTURE
  | DRAW
  | TEXTURE_SUBIMAGE
  deriving DecidableEq, Repr

/-- Modelled from the spec: `GLRViewport` is declared in GLQueueRunner.h, which is not
part of the excerpt; the recording code copies it whole. -/
structure GLRViewport where
  x : FloatBits
  y : FloatBits
  w : FloatBits
  h : FloatBits
  minZ : FloatBits
  maxZ : FloatBits
  deriving DecidableEq, Repr

/-- Modelled from the spec: `GLRect2D` is declared outside the excerpt; the recording
code copies it whole. -/
structure GLRect2D where
  x : Int
  y : Int
  w : Int
  h : Int
  deriving DecidableEq, Repr

/-- The `draw` member of the command union.  A field the recording call does not
assign is indeterminate: `none`. -/
structure DrawData where
  inputLayout : Ptr
  buffer : Ptr
  offset : Nat
  indexBuffer : Ptr
  mode : GLenum
  first : Option Int
  count : Int
  indexType : GLenum
  indices : Option Ptr
  instances : Option Int
  deriving DecidableEq, Repr

/-- The `clear` member of the command union. -/
structure ClearData where
  clearMask : Int
  clearColor : Nat
  clearZ : FloatBits
  clearStencil : Int
  colorMask : Int
  scissorX : Int
  scissorY : Int
  scissorW : Int
  scissorH : Int
  deriving DecidableEq, Repr

/-- The `texture_subimage` member of the command union. -/
structure TextureSubImageData where
  texture : Ptr
  data : Ptr
  format : DataFormat
  level : Int
  x : Int
  y : Int
  width : Int
  height : Int
  allocType : GLRAllocType
  slot : Int
  deriving DecidableEq, Repr

/-- Modelled from the spec: the union inside `GLRRenderData` is declared in
GLQueueRunner.h, which is not part of the excerpt; each member has the fields the
header assigns.  A field a call leaves unassigned is `none`. -/
inductive RenderPayload
  | blend (mask : Int) (enabled : Bool) (srcColor dstColor srcAlpha dstAlpha funcColor
      funcAlpha : Option GLenum)
  | blendColor (color : List FloatBits)
  | logic (enabled : Bool) (logicOp : GLenum)
  | stencilFunc (enabled : Bool) (func : Option GLenum) (ref compareMask : Option Nat)
  | stencilOp (writeMask : Nat) (sFail zFail pass : GLenum)
  | depth (enabled write : Bool) (func : GLenum)
  | viewport (vp : GLRViewport)
  | scissor (rc : GLRect2D)
  | uniform4 (name : CStr) (loc : Ptr) (count : Int) (v : List Nat)
  | uniformMatrix4 (name : CStr) (loc : Ptr) (m : List FloatBits)
  | uniformStereoMatrix4 (name : CStr) (loc : Ptr) (mData : List FloatBits)
  | texture (slot : Int) (texture : Ptr)
  | textureSampler (slot : Int) (wrapS wrapT magFilter minFilter : GLenum)
      (anisotropy : FloatBits)
  | textureLod (slot : Int) (minLod maxLod lodBias : FloatBits)
  | program (program : Ptr)
  | raster (cullEnable : Nat) (frontFace cullFace : GLenum) (ditherEnable
      depthClampEnable : Nat)
  | clear (c : ClearData)
  | draw (d : DrawData)
  | texture_subimage (t : TextureSubImageData)
  deriving DecidableEq, Repr

/-- One recorded command: `GLRRenderData data(cmd)` followed by the assignments to one
member of its union. -/
structure GLRRenderData where
  cmd : GLRRenderCommand
  payload : RenderPayload
  deriving DecidableEq, Repr

/-- Modelled from the spec: `GLRStep` is declared in GLQueueRunner.h, which is not part
of the excerpt: an ordered sequence of commands tagged with a kind; `passData` stands
for the pass-scoped metadata (target, load actions, tag), which recording never reads. -/
structure GLRStep where
  stepType : GLRStepType
  commands : List GLRRenderData
  passData : Nat
  deriving DecidableEq, Repr

/-! ## Resource handles -/

/-- The object `new GLRTexture(caps, width, height, depth, numMips)`.  The constructor
is defined out of line, so the model keeps its arguments instead of the members it
fills (`w`, `h`, `d`, `numMips`, `canWrap`); the other members have their in-class
initialisers. -/
structure GLRTexture where
  ctorCaps : DeviceCaps
  ctorWidth : Int
  ctorHeight : Int
  ctorDepth : Int
  ctorNumMips : Int
  texture : Nat := 0
  target : GLenum := 0xFFFF
  wrapS : GLenum := 0xFFFF
  wrapT : GLenum := 0xFFFF
  magFilter : GLenum := 0xFFFF
  minFilter : GLenum := 0xFFFF
  anisotropy : FloatBits := 0xC7C35000
  minLod : FloatBits := 0xC47A0000
  maxLod : FloatBits := 0x447A0000
  lodBias : FloatBits := 0
  deriving DecidableEq, Repr

/-- `GLRTexture(caps, width, height, depth, numMips)` -/
def GLRTexture.new (caps : DeviceCaps) (width height depth numMips : Int) : GLRTexture :=
  { ctorCaps := caps, ctorWidth := width, ctorHeight := height, ctorDepth := depth,
    ctorNumMips := numMips }

/-- `class GLRFramebuffer` -/
structure GLRFramebuffer where
  handle : Nat
  color_texture : GLRTexture
  z_stencil_buffer : Nat
  z_stencil_texture : GLRTexture
  z_buffer : Nat
  stencil_buffer : Nat
  width : Int
  height : Int
  colorDepth : Nat
  z_stencil_ : Bool
  deriving DecidableEq, Repr

/-- `GLRFramebuffer(caps, _width, _height, z_stencil)` -/
def GLRFramebuffer.new (caps : DeviceCaps) (_width _height : Int) (z_stencil : Bool) :
    GLRFramebuffer :=
  { handle := 0
    color_texture := GLRTexture.new caps _width _height 1 1
    z_stencil_buffer := 0
    z_stencil_texture := GLRTexture.new caps _width _height 1 1
    z_buffer := 0
    stencil_buffer := 0
    width := _width
    height := _height
    colorDepth := 0
    z_stencil_ := z_stencil }

/-- `class GLRShader` -/
structure GLRShader where
  shader : Nat := 0
  valid : Bool := false
  failed : Bool := false
  desc : String := ""
  code : String := ""
  error : String := ""
  deriving DecidableEq, Repr

/-- `struct GLRProgramFlags` -/
structure GLRProgramFlags where
  supportDualSource : Bool
  useClipDistance0 : Bool
  useClipDistance1 : Bool
  useClipDistance2 : Bool
  deriving DecidableEq, Repr

/-- `GLRProgram::Semantic` -/
structure Semantic where
  location : Int
  attrib : CStr
  deriving DecidableEq, Repr

/-- `GLRProgram::UniformLocQuery` -/
structure UniformLocQuery where
  dest : Ptr
  name : CStr
  required : Bool
  deriving DecidableEq, Repr

/-- `GLRProgram::Initializer` -/
structure Initializer where
  uniform : Ptr
  type : Int
  value : Int
  deriving DecidableEq, Repr

/-- `class GLRProgram`.  `locData_` has no initialiser; `uniformCache_` is the
name-keyed map, kept as an association list with one entry per name. -/
structure GLRProgram where
  program : Nat := 0
  semantics_ : List Semantic := []
  queries_ : List UniformLocQuery := []
  initialize_ : List Initializer := []
  locData_ : Option Ptr := none
  use_clip_distance : List Bool := List.replicate 8 false
  deleteCallback_ : Ptr := nullptr
  deleteParam_ : Ptr := nullptr
  uniformCache_ : List (String × Int) := []
  deriving DecidableEq, Repr

/-- `GLRInputLayout::Entry` -/
structure Entry where
  location : Int
  count : Int
  type : GLenum
  normalized : Nat
  stride : Int
  offset : Int
  deriving DecidableEq, Repr

/-- `class GLRInputLayout`; `semanticsMask_` is kept as the 32-bit pattern of the
`int`. -/
structure GLRInputLayout where
  entries : List Entry := []
  semanticsMask_ : Nat := 0
  deriving DecidableEq, Repr

/-- Modelled from the spec: `GLRBuffer` is declared in GLMemory.h, which is not part of
the excerpt; the object `new GLRBuffer(target, size)` keeps its target and its size
(`size_`, the member BufferSubdata reads). -/
structure GLRBuffer where
  target_ : GLenum
  size_ : Nat
  deriving DecidableEq, Repr

/-- Modelled from the spec: `GLPushBuffer` is declared in GLMemory.h, which is not part
of the excerpt; the object `new GLPushBuffer(this, target, size)` keeps its arguments. -/
structure GLPushBuffer where
  target : GLenum
  size : Nat
  deriving DecidableEq, Repr

/-! ## Init steps (GLQueueRunner.h) -/

/-- Modelled from the spec: `GLRInitStepType` is declared in GLQueueRunner.h, which is
not part of the excerpt; these are the init-step types the header names. -/
inductive GLRInitStepType
  | CREATE_TEXTURE
  | CREATE_SHADER
  | CREATE_PROGRAM
  | CREATE_BUFFER
  | CREATE_INPUT_LAYOUT
  | CREATE_FRAMEBUFFER
  | TEXTURE_IMAGE
  | TEXTURE_FINALIZE
  | BUFFER_SUBDATA
  deriving DecidableEq, Repr

/-- The `texture_image` member of the init-step union. -/
structure TextureImageData where
  texture : Ptr
  data : Ptr
  format : DataFormat
  level : Int
  width : Int
  height : Int
  depth : Int
  allocType : GLRAllocType
  linearFilter : Bool
  deriving DecidableEq, Repr

/-- Modelled from the spec: the union inside `GLRInitStep` is declared in
GLQueueRunner.h, which is not part of the excerpt; each member has the fields the
header assigns.  `create_shader.code` is the copy made with `new char[]` and `memcpy`;
`create_program.shaders` holds the slots written by the copy loop. -/
inductive InitPayload
  | empty
  | create_texture (texture : Ptr)
  | create_buffer (buffer : Ptr) (size : Int) (usage : GLenum)
  | create_shader (shader : Ptr) (stage : GLenum) (code : String)
  | create_framebuffer (framebuffer : Ptr)
  | create_program (program : Ptr) (support_dual_source : Bool) (shaders : List Ptr)
      (num_shaders : Int)
  | create_input_layout (inputLayout : Ptr)
  | buffer_subdata (buffer : Ptr) (offset : Int) (size : Int) (data : Ptr)
      (deleteData : Bool)
  | texture_image (t : TextureImageData)
  | texture_finalize (texture : Ptr) (loadedLevels : Int) (genMips : Bool)
  deriving DecidableEq, Repr

/-- One init step: `GLRInitStep step{type}` followed by the assignments to one member
of its union. -/
structure GLRInitStep where
  stepType : GLRInitStepType
  payload : InitPayload
  deriving DecidableEq, Repr

/-! ## The manager -/

/-- Modelled from the spec: `GLFrameData` is declared in GLFrameData.h, which is not
part of the excerpt; a frame slot holds its set of registered push buffers
(`activePushBuffers`, used through `find`, `insert`, `erase` and `end`). -/
structure GLFrameData where
  activePushBuffers : Finset Ptr
  deriving DecidableEq

/-- Modelled from the spec: `GLDeleter` is declared in GLQueueRunner.h, which is not
part of the excerpt; it holds the typed pending-deletion lists the header appends to. -/
structure GLDeleter where
  shaders : List Ptr
  programs : List Ptr
  buffers : List Ptr
  textures : List Ptr
  inputLayouts : List Ptr
  framebuffers : List Ptr
  pushBuffers : List Ptr
  deriving DecidableEq, Repr

/-- The objects allocated with `new`.  A step lives at every address (only the
addresses the manager holds matter); a resource of the other kinds is allocated at
the end of its store, so a new pointer is the store's old length. -/
structure Heap where
  steps : Nat → GLRStep
  textures : List GLRTexture
  buffers : List GLRBuffer
  shaders : List GLRShader
  framebuffers : List GLRFramebuffer
  programs : List GLRProgram
  inputLayouts : List GLRInputLayout
  pushBuffers : List GLPushBuffer

/-- The data members of `class GLRenderManager` that the recording calls of the header
touch or that the header initialises, with the heap they point into.  The queue, the
mutexes, the callbacks and the queue runner are left out: no call modelled here touches
them. -/
structure GLRenderManager where
  heap : Heap
  frameData_ : Fin MAX_INFLIGHT_FRAMES → GLFrameData
  insideFrame_ : Bool
  curRenderStep_ : Ptr
  steps_ : List Ptr
  initSteps_ : List GLRInitStep
  deleter_ : GLDeleter
  skipGLCalls_ : Bool
  curFrame_ : Int
  inflightFrames_ : Int
  newInflightFrames_ : Int
  swapInterval_ : Int
  swapIntervalChanged_ : Bool
  targetWidth_ : Int
  targetHeight_ : Int
  curProgram_ : Ptr
  caps_ : DeviceCaps

/-- A manager as the in-class initialisers leave it, with nothing allocated. -/
def GLRenderManager.initial : GLRenderManager :=
  { heap :=
      { steps := fun _ => { stepType := .RENDER, commands := [], passData := 0 }
        textures := [], buffers := [], shaders := [], framebuffers := [], programs := []
        inputLayouts := [], pushBuffers := [] }
    frameData_ := fun _ => { activePushBuffers := ∅ }
    insideFrame_ := false
    curRenderStep_ := nullptr
    steps_ := []
    initSteps_ := []
    deleter_ :=
      { shaders := [], programs := [], buffers := [], textures := [], inputLayouts := []
        framebuffers := [], pushBuffers := [] }
    skipGLCalls_ := false
    curFrame_ := 0
    inflightFrames_ := MAX_INFLIGHT_FRAMES
    newInflightFrames_ := -1
    swapInterval_ := 0
    swapIntervalChanged_ := true
    targetWidth_ := 0
    targetHeight_ := 0
    curProgram_ := nullptr
    caps_ := 0 }

namespace GLRenderManager

/-- The expression `curRenderStep_ && curRenderStep_->stepType == GLRStepType::RENDER`. -/
def curStepIsRender (m : GLRenderManager) : Bool :=
  match m.curRenderStep_ with
  | none => false
  | some p => (m.heap.steps p).stepType == GLRStepType.RENDER

/-- `bool IsInRenderPass() const` -/
def IsInRenderPass (m : GLRenderManager) : Bool :=
  m.curStepIsRender

/-- The manager after `commands.push_back(data)` on the step at address `p`. -/
def appendCommand (m : GLRenderManager) (p : Nat) (data : GLRRenderData) : GLRenderManager :=
  let step := m.heap.steps p
  let step1 := { step with commands := step.commands ++ [data] }
  { m with heap := { m.heap with steps := Function.update m.heap.steps p step1 } }

/-- The statement `curRenderStep_->commands.push_back(data)`. -/
def pushCommand (m : GLRenderManager) (data : GLRRenderData) :
    Except Violation GLRenderManager :=
  match m.curRenderStep_ with
  | none => .error .badPointer
  | some p => .ok (m.appendCommand p data)

/-- The statement `initSteps_.push_back(step)`. -/
def pushInitStep (m : GLRenderManager) (step : GLRInitStep) : GLRenderManager :=
  { m with initSteps_ := m.initSteps_ ++ [step] }

/-! ### Recording calls -/

/-- `void TextureSubImage(slot, texture, level, x, y, width, height, format, data,
allocType)` -/
def TextureSubImage (m : GLRenderManager) (slot : Int) (texture : Ptr) (level x y width
    height : Int) (format : DataFormat) (data : Ptr) (allocType : GLRAllocType) :
    Except Violation GLRenderManager :=
  if !m.curStepIsRender then .error .openStep
  else m.pushCommand
    { cmd := .TEXTURE_SUBIMAGE
      payload := .texture_subimage
        { texture := texture, data := data, format := format, level := level, x := x
          y := y, width := width, height := height, allocType := allocType, slot := slot } }

/-- `void BindTexture(int slot, GLRTexture *tex)` -/
def BindTexture (m : GLRenderManager) (slot : Int) (tex : Ptr) :
    Except Violation GLRenderManager :=
  if m.curRenderStep_.isNone && tex.isNone then .ok m
  else if !m.curStepIsRender then .error .openStep
  else if !(slot < MAX_GL_TEXTURE_SLOTS) then .error .textureSlot
  else m.pushCommand { cmd := .BINDTEXTURE, payload := .texture slot tex }

/-- `void BindProgram(GLRProgram *program)`; the last assignment is the `_DEBUG` one. -/
def BindProgram (m : GLRenderManager) (program : Ptr) : Except Violation GLRenderManager :=
  if !m.curStepIsRender then .error .openStep
  else if program.isNone then .error .nullProgram
  else
    match m.pushCommand { cmd := .BINDPROGRAM, payload := .program program } with
    | .error e => .error e
    | .ok m1 => .ok { m1 with curProgram_ := program }

/-- `void SetDepth(bool enabled, bool write, GLenum func)` -/
def SetDepth (m : GLRenderManager) (enabled write : Bool) (func : GLenum) :
    Except Violation GLRenderManager :=
  if !m.curStepIsRender then .error .openStep
  else m.pushCommand { cmd := .DEPTH, payload := .depth enabled write func }

/-- `void SetViewport(const GLRViewport &vp)` -/
def SetViewport (m : GLRenderManager) (vp : GLRViewport) : Except Violation GLRenderManager :=
  if !m.curStepIsRender then .error .openStep
  else m.pushCommand { cmd := .VIEWPORT, payload := .viewport vp }

/-- `void SetScissor(const GLRect2D &rc)` -/
def SetScissor (m : GLRenderManager) (rc : GLRect2D) : Except Violation GLRenderManager :=
  if !m.curStepIsRender then .error .openStep
  else m.pushCommand { cmd := .SCISSOR, payload := .scissor rc }

/-- `void SetUniformI(const GLint *loc, int count, const int *udata)`; `udata` is the
memory the pointer leads to, in 32-bit words, of which `memcpy` takes `count`. -/
def SetUniformI (m : GLRenderManager) (loc : Ptr) (count : Int) (udata : List Nat) :
    Except Violation GLRenderManager :=
  if !m.curStepIsRender then .error .openStep
  else if m.curProgram_.isNone then .error .noCurProgram
  else m.pushCommand
    { cmd := .UNIFORM4I, payload := .uniform4 none loc count (udata.take count.toNat) }

/-- `void SetUniformI1(const GLint *loc, int udata)` -/
def SetUniformI1 (m : GLRenderManager) (loc : Ptr) (udata : Int) :
    Except Violation GLRenderManager :=
  if !m.curStepIsRender then .error .openStep
  else if m.curProgram_.isNone then .error .noCurProgram
  else m.pushCommand { cmd := .UNIFORM4I, payload := .uniform4 none loc 1 [intBits udata] }

/-- `void SetUniformUI(const GLint *loc, int count, const uint32_t *udata)` -/
def SetUniformUI (m : GLRenderManager) (loc : Ptr) (count : Int) (udata : List Nat) :
    Except Violation GLRenderManager :=
  if !m.curStepIsRender then .error .openStep
  else if m.curProgram_.isNone then .error .noCurProgram
  else m.pushCommand
    { cmd := .UNIFORM4UI, payload := .uniform4 none loc count (udata.take count.toNat) }

/-- `void SetUniformUI1(const GLint *loc, uint32_t udata)` -/
def SetUniformUI1 (m : GLRenderManager) (loc : Ptr) (udata : Nat) :
    Except Violation GLRenderManager :=
  if !m.curStepIsRender then .error .openStep
  else if m.curProgram_.isNone then .error .noCurProgram
  else m.pushCommand { cmd := .UNIFORM4UI, payload := .uniform4 none loc 1 [udata] }

/-- `void SetUniformF(const GLint *loc, int count, const float *udata)` -/
def SetUniformF (m : GLRenderManager) (loc : Ptr) (count : Int) (udata : List FloatBits) :
    Except Violation GLRenderManager :=
  if !m.curStepIsRender then .error .openStep
  else if m.curProgram_.isNone then .error .noCurProgram
  else m.pushCommand
    { cmd := .UNIFORM4F, payload := .uniform4 none loc count (udata.take count.toNat) }

/-- `void SetUniformF1(const GLint *loc, const float udata)` -/
def SetUniformF1 (m : GLRenderManager) (loc : Ptr) (udata : FloatBits) :
    Except Violation GLRenderManager :=
  if !m.curStepIsRender then .error .openStep
  else if m.curProgram_.isNone then .error .noCurProgram
  else m.pushCommand { cmd := .UNIFORM4F, payload := .uniform4 none loc 1 [udata] }

/-- `void SetUniformF(const char *name, int count, const float *udata)` -/
def SetUniformFByName (m : GLRenderManager) (name : CStr) (count : Int)
    (udata : List FloatBits) : Except Violation GLRenderManager :=
  if !m.curStepIsRender then .error .openStep
  else if m.curProgram_.isNone then .error .noCurProgram
  else m.pushCommand
    { cmd := .UNIFORM4F, payload := .uniform4 name nullptr count (udata.take count.toNat) }

/-- `void SetUniformM4x4(const GLint *loc, const float *udata)` -/
def SetUniformM4x4 (m : GLRenderManager) (loc : Ptr) (udata : List FloatBits) :
    Except Violation GLRenderManager :=
  if !m.curStepIsRender then .error .openStep
  else if m.curProgram_.isNone then .error .noCurProgram
  else m.pushCommand
    { cmd := .UNIFORMMATRIX, payload := .uniformMatrix4 none loc (udata.take 16) }

/-- `void SetUniformM4x4Stereo(const char *name, const GLint *loc, const float *left,
const float *right)`; `mData` is the content of the `new float[32]`. -/
def SetUniformM4x4Stereo (m : GLRenderManager) (name : CStr) (loc : Ptr)
    (left right : List FloatBits) : Except Violation GLRenderManager :=
  if !m.curStepIsRender then .error .openStep
  else if m.curProgram_.isNone then .error .noCurProgram
  else m.pushCommand
    { cmd := .UNIFORMSTEREOMATRIX
      payload := .uniformStereoMatrix4 name loc (left.take 16 ++ right.take 16) }

/-- `void SetUniformM4x4(const char *name, const float *udata)` -/
def SetUniformM4x4ByName (m : GLRenderManager) (name : CStr) (udata : List FloatBits) :
    Except Violation GLRenderManager :=
  if !m.curStepIsRender then .error .openStep
  else if m.curProgram_.isNone then .error .noCurProgram
  else m.pushCommand
    { cmd := .UNIFORMMATRIX, payload := .uniformMatrix4 name nullptr (udata.take 16) }

/-- `void SetBlendAndMask(colorMask, blendEnabled, srcColor, dstColor, srcAlpha, dstAlpha,
funcColor, funcAlpha)`; its check is an `_assert_`, active in every build. -/
def SetBlendAndMask (m : GLRenderManager) (colorMask : Int) (blendEnabled : Bool)
    (srcColor dstColor srcAlpha dstAlpha funcColor funcAlpha : GLenum) :
    Except Violation GLRenderManager :=
  if !m.curStepIsRender then .error .openStep
  else m.pushCommand
    { cmd := .BLEND
      payload := .blend colorMask blendEnabled (some srcColor) (some dstColor)
        (some srcAlpha) (some dstAlpha) (some funcColor) (some funcAlpha) }

/-- `void SetNoBlendAndMask(int colorMask)` -/
def SetNoBlendAndMask (m : GLRenderManager) (colorMask : Int) :
    Except Violation GLRenderManager :=
  if !m.curStepIsRender then .error .openStep
  else m.pushCommand
    { cmd := .BLEND, payload := .blend colorMask false none none none none none none }

/-- `void SetLogicOp(bool enabled, GLenum logicOp)` (compiled without `USING_GLES2`) -/
def SetLogicOp (m : GLRenderManager) (enabled : Bool) (logicOp : GLenum) :
    Except Violation GLRenderManager :=
  if !m.curStepIsRender then .error .openStep
  else m.pushCommand { cmd := .LOGICOP, payload := .logic enabled logicOp }

/-- `void SetStencilFunc(bool enabled, GLenum func, uint8_t refValue, uint8_t compareMask)` -/
def SetStencilFunc (m : GLRenderManager) (enabled : Bool) (func : GLenum)
    (refValue compareMask : Nat) : Except Violation GLRenderManager :=
  if !m.curStepIsRender then .error .openStep
  else m.pushCommand
    { cmd := .STENCILFUNC
      payload := .stencilFunc enabled (some func) (some refValue) (some compareMask) }

/-- `void SetStencilOp(uint8_t writeMask, GLenum sFail, GLenum zFail, GLenum pass)` -/
def SetStencilOp (m : GLRenderManager) (writeMask : Nat) (sFail zFail pass : GLenum) :
    Except Violation GLRenderManager :=
  if !m.curStepIsRender then .error .openStep
  else m.pushCommand { cmd := .STENCILOP, payload := .stencilOp writeMask sFail zFail pass }

/-- `void SetStencilDisabled()`: the other fields are not assigned. -/
def SetStencilDisabled (m : GLRenderManager) : Except Violation GLRenderManager :=
  if !m.curStepIsRender then .error .openStep
  else m.pushCommand { cmd := .STENCILFUNC, payload := .stencilFunc false none none none }

/-- `void SetBlendFactor(const float color[4])`; `CopyFloat4` copies four floats. -/
def SetBlendFactor (m : GLRenderManager) (color : List FloatBits) :
    Except Violation GLRenderManager :=
  if !m.curStepIsRender then .error .openStep
  else m.pushCommand { cmd := .BLENDCOLOR, payload := .blendColor (color.take 4) }

/-- `void SetRaster(cullEnable, frontFace, cullFace, ditherEnable, depthClamp)` -/
def SetRaster (m : GLRenderManager) (cullEnable : Nat) (frontFace cullFace : GLenum)
    (ditherEnable depthClamp : Nat) : Except Violation GLRenderManager :=
  if !m.curStepIsRender then .error .openStep
  else m.pushCommand
    { cmd := .RASTER, payload := .raster cullEnable frontFace cullFace ditherEnable depthClamp }

/-- `void SetTextureSampler(slot, wrapS, wrapT, magFilter, minFilter, anisotropy)` -/
def SetTextureSampler (m : GLRenderManager) (slot : Int) (wrapS wrapT magFilter
    minFilter : GLenum) (anisotropy : FloatBits) : Except Violation GLRenderManager :=
  if !m.curStepIsRender then .error .openStep
  else if !(slot < MAX_GL_TEXTURE_SLOTS) then .error .textureSlot
  else m.pushCommand
    { cmd := .TEXTURESAMPLER
      payload := .textureSampler slot wrapS wrapT magFilter minFilter anisotropy }

/-- `void SetTextureLod(int slot, float minLod, float maxLod, float lodBias)` -/
def SetTextureLod (m : GLRenderManager) (slot : Int) (minLod maxLod lodBias : FloatBits) :
    Except Violation GLRenderManager :=
  if !m.curStepIsRender then .error .openStep
  else if !(slot < MAX_GL_TEXTURE_SLOTS) then .error .textureSlot
  else m.pushCommand
    { cmd := .TEXTURELOD, payload := .textureLod slot minLod maxLod lodBias }

/-- `void Clear(clearColor, clearZ, clearStencil, clearMask, colorMask, scissorX, scissorY,
scissorW, scissorH)` -/
def Clear (m : GLRenderManager) (clearColor : Nat) (clearZ : FloatBits) (clearStencil
    clearMask colorMask scissorX scissorY scissorW scissorH : Int) :
    Except Violation GLRenderManager :=
  if !m.curStepIsRender then .error .openStep
  else if clearMask == 0 then .ok m
  else m.pushCommand
    { cmd := .CLEAR
      payload := .clear
        { clearMask := clearMask, clearColor := clearColor, clearZ := clearZ
          clearStencil := clearStencil, colorMask := colorMask, scissorX := scissorX
          scissorY := scissorY, scissorW := scissorW, scissorH := scissorH } }

/-- `void Draw(inputLayout, buffer, offset, mode, first, count)`; `indices` and
`instances` are not assigned. -/
def Draw (m : GLRenderManager) (inputLayout buffer : Ptr) (offset : Nat) (mode : GLenum)
    (first count : Int) : Except Violation GLRenderManager :=
  if !m.curStepIsRender then .error .openStep
  else m.pushCommand
    { cmd := .DRAW
      payload := .draw
        { inputLayout := inputLayout, offset := offset, buffer := buffer
          indexBuffer := nullptr, mode := mode, first := some first, count := count
          indexType := 0, indices := none, instances := none } }

/-- `void DrawIndexed(inputLayout, buffer, offset, indexBuffer, mode, count, indexType,
indices, instances)`; `first` is not assigned. -/
def DrawIndexed (m : GLRenderManager) (inputLayout buffer : Ptr) (offset : Nat)
    (indexBuffer : Ptr) (mode : GLenum) (count : Int) (indexType : GLenum) (indices : Ptr)
    (instances : Int) : Except Violation GLRenderManager :=
  if !m.curStepIsRender then .error .openStep
  else m.pushCommand
    { cmd := .DRAW
      payload := .draw
        { inputLayout := inputLayout, offset := offset, buffer := buffer
          indexBuffer := indexBuffer, mode := mode, first := none, count := count
          indexType := indexType, indices := some indices, instances := some instances } }

/-! ### Init operations -/

/-- `GLRTexture *CreateTexture(GLenum target, int width, int height, int depth,
int numMips)` -/
def CreateTexture (m : GLRenderManager) (target : GLenum) (width height depth
    numMips : Int) : Ptr × GLRenderManager :=
  let texture : Ptr := some m.heap.textures.length
  let obj := { GLRTexture.new m.caps_ width height depth numMips with target := target }
  let m1 := { m with heap := { m.heap with textures := m.heap.textures ++ [obj] } }
  (texture, m1.pushInitStep { stepType := .CREATE_TEXTURE, payload := .create_texture texture })

/-- `GLRBuffer *CreateBuffer(GLuint target, size_t size, GLuint usage)` -/
def CreateBuffer (m : GLRenderManager) (target : GLenum) (size : Nat) (usage : GLenum) :
    Ptr × GLRenderManager :=
  let buffer : Ptr := some m.heap.buffers.length
  let obj : GLRBuffer := { target_ := target, size_ := size }
  let m1 := { m with heap := { m.heap with buffers := m.heap.buffers ++ [obj] } }
  (buffer, m1.pushInitStep
    { stepType := .CREATE_BUFFER, payload := .create_buffer buffer (castInt size) usage })

/-- `GLRShader *CreateShader(GLuint stage, const std::string &code, const std::string &desc)` -/
def CreateShader (m : GLRenderManager) (stage : GLenum) (code desc : String) :
    Ptr × GLRenderManager :=
  let shader : Ptr := some m.heap.shaders.length
  let obj : GLRShader := { desc := desc }
  let m1 := { m with heap := { m.heap with shaders := m.heap.shaders ++ [obj] } }
  (shader, m1.pushInitStep
    { stepType := .CREATE_SHADER, payload := .create_shader shader stage code })

/-- `GLRFramebuffer *CreateFramebuffer(int width, int height, bool z_stencil)` -/
def CreateFramebuffer (m : GLRenderManager) (width height : Int) (z_stencil : Bool) :
    Ptr × GLRenderManager :=
  let framebuffer : Ptr := some m.heap.framebuffers.length
  let obj := GLRFramebuffer.new m.caps_ width height z_stencil
  let m1 := { m with heap := { m.heap with framebuffers := m.heap.framebuffers ++ [obj] } }
  (framebuffer, m1.pushInitStep
    { stepType := .CREATE_FRAMEBUFFER, payload := .create_framebuffer framebuffer })

/-- `GLRProgram *CreateProgram(shaders, semantics, queries, initializers, locData, flags)`.
`shaderSlots` is `ARRAY_SIZE(step.create_program.shaders)`, the length of an array
declared in GLQueueRunner.h, which is not part of the excerpt.  The two checks after the
copy of the shaders are the `_DEBUG` loops over `queries` and `semantics`. -/
def CreateProgram (shaderSlots : Nat) (m : GLRenderManager) (shaders : List Ptr)
    (semantics : List Semantic) (queries : List UniformLocQuery)
    (initializers : List Initializer) (locData : Ptr) (flags : GLRProgramFlags) :
    Except Violation (Ptr × GLRenderManager) :=
  if !(shaders.length ≤ shaderSlots) then .error .shaderCapacity
  else
    let program : Ptr := some m.heap.programs.length
    let obj : GLRProgram :=
      { semantics_ := semantics
        queries_ := queries
        initialize_ := initializers
        locData_ := some locData
        use_clip_distance :=
          (((List.replicate 8 false).set 0 flags.useClipDistance0).set 1
            flags.useClipDistance1).set 2 flags.useClipDistance2 }
    if !(shaders.length > 0) then .error .zeroShaders
    else if !(queries.all fun iter => iter.name.isSome) then .error .queryName
    else if !(semantics.all fun sem => sem.attrib.isSome) then .error .semanticName
    else
      let m1 := { m with heap := { m.heap with programs := m.heap.programs ++ [obj] } }
      .ok (program, m1.pushInitStep
        { stepType := .CREATE_PROGRAM
          payload := .create_program program flags.supportDualSource shaders
            (castInt shaders.length) })

/-- The loop `semanticsMask_ |= 1 << iter.location` over the entries, on 32-bit
patterns.  The shift is defined for locations in `[0, 32)` only. -/
def semanticsMaskOf (entries : List Entry) : Nat :=
  entries.foldl (fun mask iter => (mask ||| (1 <<< iter.location.toNat)) % 2 ^ 32) 0

/-- `GLRInputLayout *CreateInputLayout(const std::vector<GLRInputLayout::Entry> &entries)` -/
def CreateInputLayout (m : GLRenderManager) (entries : List Entry) : Ptr × GLRenderManager :=
  let inputLayout : Ptr := some m.heap.inputLayouts.length
  let obj : GLRInputLayout := { entries := entries, semanticsMask_ := semanticsMaskOf entries }
  let m1 := { m with heap := { m.heap with inputLayouts := m.heap.inputLayouts ++ [obj] } }
  (inputLayout, m1.pushInitStep
    { stepType := .CREATE_INPUT_LAYOUT, payload := .create_input_layout inputLayout })

/-- `void RegisterPushBuffer(int frame, GLPushBuffer *buffer)`; `frame` indexes the array
`frameData_[MAX_INFLIGHT_FRAMES]`. -/
def RegisterPushBuffer (m : GLRenderManager) (frame : Fin MAX_INFLIGHT_FRAMES)
    (buffer : Ptr) : GLRenderManager :=
  let slot : GLFrameData :=
    { activePushBuffers := insert buffer (m.frameData_ frame).activePushBuffers }
  { m with frameData_ := Function.update m.frameData_ frame slot }

/-- `GLPushBuffer *CreatePushBuffer(int frame, GLuint target, size_t size)` -/
def CreatePushBuffer (m : GLRenderManager) (frame : Fin MAX_INFLIGHT_FRAMES)
    (target : GLenum) (size : Nat) : Ptr × GLRenderManager :=
  let push : Ptr := some m.heap.pushBuffers.length
  let obj : GLPushBuffer := { target := target, size := size }
  let m1 := { m with heap := { m.heap with pushBuffers := m.heap.pushBuffers ++ [obj] } }
  (push, m1.RegisterPushBuffer frame push)

/-- `void DeleteShader(GLRShader *shader)` -/
def DeleteShader (m : GLRenderManager) (shader : Ptr) : GLRenderManager :=
  { m with deleter_ := { m.deleter_ with shaders := m.deleter_.shaders ++ [shader] } }

/-- `void DeleteProgram(GLRProgram *program)` -/
def DeleteProgram (m : GLRenderManager) (program : Ptr) : GLRenderManager :=
  { m with deleter_ := { m.deleter_ with programs := m.deleter_.programs ++ [program] } }

/-- `void DeleteBuffer(GLRBuffer *buffer)` -/
def DeleteBuffer (m : GLRenderManager) (buffer : Ptr) : GLRenderManager :=
  { m with deleter_ := { m.deleter_ with buffers := m.deleter_.buffers ++ [buffer] } }

/-- `void DeleteTexture(GLRTexture *texture)` -/
def DeleteTexture (m : GLRenderManager) (texture : Ptr) : GLRenderManager :=
  { m with deleter_ := { m.deleter_ with textures := m.deleter_.textures ++ [texture] } }

/-- `void DeleteInputLayout(GLRInputLayout *inputLayout)` -/
def DeleteInputLayout (m : GLRenderManager) (inputLayout : Ptr) : GLRenderManager :=
  { m with deleter_ :=
      { m.deleter_ with inputLayouts := m.deleter_.inputLayouts ++ [inputLayout] } }

/-- `void DeleteFramebuffer(GLRFramebuffer *framebuffer)` -/
def DeleteFramebuffer (m : GLRenderManager) (framebuffer : Ptr) : GLRenderManager :=
  { m with deleter_ :=
      { m.deleter_ with framebuffers := m.deleter_.framebuffers ++ [framebuffer] } }

/-- `void DeletePushBuffer(GLPushBuffer *pushbuffer)` -/
def DeletePushBuffer (m : GLRenderManager) (pushbuffer : Ptr) : GLRenderManager :=
  { m with deleter_ :=
      { m.deleter_ with pushBuffers := m.deleter_.pushBuffers ++ [pushbuffer] } }

/-- `void BufferSubdata(buffer, offset, size, data, deleteData)`.  `offset` and `size` are
`size_t`; the subtraction `buffer->size_ - size` is unsigned and wraps. -/
def BufferSubdata (m : GLRenderManager) (buffer : Ptr) (offset size : Nat) (data : Ptr)
    (deleteData : Bool) : Except Violation GLRenderManager :=
  match buffer.bind (fun a => m.heap.buffers[a]?) with
  | none => .error .badPointer
  | some b =>
    if !(decide (offset ≥ 0)) then .error .offsetSign
    else if !(offset ≤ (b.size_ + 2 ^ SIZE_BITS - size) % 2 ^ SIZE_BITS) then
      .error .bufferRange
    else
      .ok (m.pushInitStep
        { stepType := .BUFFER_SUBDATA
          payload := .buffer_subdata buffer (castInt offset) (castInt size) data deleteData })

/-- `void TextureImage(texture, level, width, height, depth, format, data, allocType,
linearFilter)` -/
def TextureImage (m : GLRenderManager) (texture : Ptr) (level width height depth : Int)
    (format : DataFormat) (data : Ptr) (allocType : GLRAllocType) (linearFilter : Bool) :
    GLRenderManager :=
  m.pushInitStep
    { stepType := .TEXTURE_IMAGE
      payload := .texture_image
        { texture := texture, data := data, format := format, level := level
          width := width, height := height, depth := depth, allocType := allocType
          linearFilter := linearFilter } }

/-- `void FinalizeTexture(GLRTexture *texture, int loadedLevels, bool genMips)` -/
def FinalizeTexture (m : GLRenderManager) (texture : Ptr) (loadedLevels : Int)
    (genMips : Bool) : GLRenderManager :=
  m.pushInitStep
    { stepType := .TEXTURE_FINALIZE
      payload := .texture_finalize texture loadedLevels genMips }

/-- `void SetInflightFrames(int f)` -/
def SetInflightFrames (m : GLRenderManager) (f : Int) : GLRenderManager :=
  { m with newInflightFrames_ :=
      if f < 1 || f > MAX_INFLIGHT_FRAMES then MAX_INFLIGHT_FRAMES else f }

/-- `int GetCurFrame() const` -/
def GetCurFrame (m : GLRenderManager) : Int :=
  m.curFrame_

/-- One iteration of the loop of `UnregisterPushBuffer`, on the frame slots and
`foundCount`. -/
def unregisterIter (buffer : Ptr)
    (acc : (Fin MAX_INFLIGHT_FRAMES → GLFrameData) × Int) (i : Fin MAX_INFLIGHT_FRAMES) :
    (Fin MAX_INFLIGHT_FRAMES → GLFrameData) × Int :=
  if buffer ∈ (acc.1 i).activePushBuffers then
    (Function.update acc.1 i { activePushBuffers := (acc.1 i).activePushBuffers.erase buffer },
      acc.2 + 1)
  else acc

/-- The loop `for (int i = 0; i < MAX_INFLIGHT_FRAMES; i++)` of `UnregisterPushBuffer`:
the manager and `foundCount` when the loop ends, before the assertion. -/
def unregisterLoop (m : GLRenderManager) (buffer : Ptr) : GLRenderManager × Int :=
  let r := (List.finRange MAX_INFLIGHT_FRAMES).foldl (unregisterIter buffer) (m.frameData_, 0)
  ({ m with frameData_ := r.1 }, r.2)

/-- `void UnregisterPushBuffer(GLPushBuffer *buffer)` -/
def UnregisterPushBuffer (m : GLRenderManager) (buffer : Ptr) :
    Except Violation GLRenderManager :=
  let r := m.unregisterLoop buffer
  if !(r.2 == 1) then .error .foundCount else .ok r.1

end GLRenderManager

/-! ## Calls as data

To state a property of every recording call, or of a sequence of calls, a call with its
arguments is a value, and `run` is the call itself. -/

/-- A state- or draw-recording call of the manager with its arguments. -/
inductive RecordCall
  | SetViewport (vp : GLRViewport)
  | SetScissor (rc : GLRect2D)
  | SetDepth (enabled write : Bool) (func : GLenum)
  | SetRaster (cullEnable : Nat) (frontFace cullFace : GLenum) (ditherEnable depthClamp : Nat)
  | SetStencilFunc (enabled : Bool) (func : GLenum) (refValue compareMask : Nat)
  | SetStencilOp (writeMask : Nat) (sFail zFail pass : GLenum)
  | SetStencilDisabled
  | SetBlendAndMask (colorMask : Int) (blendEnabled : Bool)
      (srcColor dstColor srcAlpha dstAlpha funcColor funcAlpha : GLenum)
  | SetNoBlendAndMask (colorMask : Int)
  | SetLogicOp (enabled : Bool) (logicOp : GLenum)
  | SetBlendFactor (color : List FloatBits)
  | SetTextureSampler (slot : Int) (wrapS wrapT magFilter minFilter : GLenum)
      (anisotropy : FloatBits)
  | SetTextureLod (slot : Int) (minLod maxLod lodBias : FloatBits)
  | BindTexture (slot : Int) (tex : Ptr)
  | BindProgram (program : Ptr)
  | SetUniformI (loc : Ptr) (count : Int) (udata : List Nat)
  | SetUniformI1 (loc : Ptr) (udata : Int)
  | SetUniformUI (loc : Ptr) (count : Int) (udata : List Nat)
  | SetUniformUI1 (loc : Ptr) (udata : Nat)
  | SetUniformF (loc : Ptr) (count : Int) (udata : List FloatBits)
  | SetUniformF1 (loc : Ptr) (udata : FloatBits)
  | SetUniformFByName (name : CStr) (count : Int) (udata : List FloatBits)
  | SetUniformM4x4 (loc : Ptr) (udata : List FloatBits)
  | SetUniformM4x4Stereo (name : CStr) (loc : Ptr) (left right : List FloatBits)
  | SetUniformM4x4ByName (name : CStr) (udata : List FloatBits)
  | Clear (clearColor : Nat) (clearZ : FloatBits) (clearStencil clearMask colorMask scissorX
      scissorY scissorW scissorH : Int)
  | Draw (inputLayout buffer : Ptr) (offset : Nat) (mode : GLenum) (first count : Int)
  | DrawIndexed (inputLayout buffer : Ptr) (offset : Nat) (indexBuffer : Ptr) (mode : GLenum)
      (count : Int) (indexType : GLenum) (indices : Ptr) (instances : Int)
  | TextureSubImage (slot : Int) (texture : Ptr) (level x y width height : Int)
      (format : DataFormat) (data : Ptr) (allocType : GLRAllocType)
  deriving DecidableEq, Repr

/-- The call made on the manager `m`. -/
def RecordCall.run (m : GLRenderManager) : RecordCall → Except Violation GLRenderManager
  | .SetViewport vp => m.SetViewport vp
  | .SetScissor rc => m.SetScissor rc
  | .SetDepth enabled write func => m.SetDepth enabled write func
  | .SetRaster cullEnable frontFace cullFace ditherEnable depthClamp =>
    m.SetRaster cullEnable frontFace cullFace ditherEnable depthClamp
  | .SetStencilFunc enabled func refValue compareMask =>
    m.SetStencilFunc enabled func refValue compareMask
  | .SetStencilOp writeMask sFail zFail pass => m.SetStencilOp writeMask sFail zFail pass
  | .SetStencilDisabled => m.SetStencilDisabled
  | .SetBlendAndMask colorMask blendEnabled srcColor dstColor srcAlpha dstAlpha funcColor
      funcAlpha =>
    m.SetBlendAndMask colorMask blendEnabled srcColor dstColor srcAlpha dstAlpha funcColor
      funcAlpha
  | .SetNoBlendAndMask colorMask => m.SetNoBlendAndMask colorMask
  | .SetLogicOp enabled logicOp => m.SetLogicOp enabled logicOp
  | .SetBlendFactor color => m.SetBlendFactor color
  | .SetTextureSampler slot wrapS wrapT magFilter minFilter anisotropy =>
    m.SetTextureSampler slot wrapS wrapT magFilter minFilter anisotropy
  | .SetTextureLod slot minLod maxLod lodBias => m.SetTextureLod slot minLod maxLod lodBias
  | .BindTexture slot tex => m.BindTexture slot tex
  | .BindProgram program => m.BindProgram program
  | .SetUniformI loc count udata => m.SetUniformI loc count udata
  | .SetUniformI1 loc udata => m.SetUniformI1 loc udata
  | .SetUniformUI loc count udata => m.SetUniformUI loc count udata
  | .SetUniformUI1 loc udata => m.SetUniformUI1 loc udata
  | .SetUniformF loc count udata => m.SetUniformF loc count udata
  | .SetUniformF1 loc udata => m.SetUniformF1 loc udata
  | .SetUniformFByName name count udata => m.SetUniformFByName name count udata
  | .SetUniformM4x4 loc udata => m.SetUniformM4x4 loc udata
  | .SetUniformM4x4Stereo name loc left right => m.SetUniformM4x4Stereo name loc left right
  | .SetUniformM4x4ByName name udata => m.SetUniformM4x4ByName name udata
  | .Clear clearColor clearZ clearStencil clearMask colorMask scissorX scissorY scissorW
      scissorH =>
    m.Clear clearColor clearZ clearStencil clearMask colorMask scissorX scissorY scissorW
      scissorH
  | .Draw inputLayout buffer offset mode first count =>
    m.Draw inputLayout buffer offset mode first count
  | .DrawIndexed inputLayout buffer offset indexBuffer mode count indexType indices instances =>
    m.DrawIndexed inputLayout buffer offset indexBuffer mode count indexType indices instances
  | .TextureSubImage slot texture level x y width height format data allocType =>
    m.TextureSubImage slot texture level x y width height format data allocType

/-- Whether the call is `BindTexture`, the one recording call that returns early when
no step is open. -/
def RecordCall.isBindTexture : RecordCall → Bool
  | .BindTexture _ _ => true
  | _ => false

/-- A manager whose open step, at address 0, is an empty render step, with a program
bound: the state on which a call is run to read off what it records. -/
def openEmptyStep : GLRenderManager :=
  { GLRenderManager.initial with curRenderStep_ := some 0, curProgram_ := some 0 }

/-- The commands a call records: what it leaves in an empty open render step. -/
def RecordCall.recorded (c : RecordCall) : List GLRRenderData :=
  match c.run openEmptyStep with
  | .ok m1 => (m1.heap.steps 0).commands
  | .error _ => []

/-- An init operation of the manager with its arguments. -/
inductive InitCall
  | CreateTexture (target : GLenum) (width height depth numMips : Int)
  | CreateBuffer (target : GLenum) (size : Nat) (usage : GLenum)
  | CreateShader (stage : GLenum) (code desc : String)
  | CreateFramebuffer (width height : Int) (z_stencil : Bool)
  | CreateInputLayout (entries : List Entry)
  | CreateProgram (shaders : List Ptr) (semantics : List Semantic)
      (queries : List UniformLocQuery) (initializers : List Initializer) (locData : Ptr)
      (flags : GLRProgramFlags)
  | TextureImage (texture : Ptr) (level width height depth : Int) (format : DataFormat)
      (data : Ptr) (allocType : GLRAllocType) (linearFilter : Bool)
  | FinalizeTexture (texture : Ptr) (loadedLevels : Int) (genMips : Bool)
  | BufferSubdata (buffer : Ptr) (offset size : Nat) (data : Ptr) (deleteData : Bool)
  deriving DecidableEq, Repr

/-- The init operation made on the manager `m`: the handle it returns (`none` for a
`void` call) and the manager afterwards. -/
def InitCall.run (shaderSlots : Nat) (m : GLRenderManager) :
    InitCall → Except Violation (Option Ptr × GLRenderManager)
  | .CreateTexture target width height depth numMips =>
    let r := m.CreateTexture target width height depth numMips
    .ok (some r.1, r.2)
  | .CreateBuffer target size usage =>
    let r := m.CreateBuffer target size usage
    .ok (some r.1, r.2)
  | .CreateShader stage code desc =>
    let r := m.CreateShader stage code desc
    .ok (some r.1, r.2)
  | .CreateFramebuffer width height z_stencil =>
    let r := m.CreateFramebuffer width height z_stencil
    .ok (some r.1, r.2)
  | .CreateInputLayout entries =>
    let r := m.CreateInputLayout entries
    .ok (some r.1, r.2)
  | .CreateProgram shaders semantics queries initializers locData flags =>
    match GLRenderManager.CreateProgram shaderSlots m shaders semantics queries initializers
      locData flags with
    | .error e => .error e
    | .ok r => .ok (some r.1, r.2)
  | .TextureImage texture level width height depth format data allocType linearFilter =>
    .ok (none, m.TextureImage texture level width height depth format data allocType
      linearFilter)
  | .FinalizeTexture texture loadedLevels genMips =>
    .ok (none, m.FinalizeTexture texture loadedLevels genMips)
  | .BufferSubdata buffer offset size data deleteData =>
    match m.BufferSubdata buffer offset size data deleteData with
    | .error e => .error e
    | .ok m1 => .ok (none, m1)

/-- The init operations made one after the other: the handles returned, in call order,
and the manager afterwards; the first violation ends the run. -/
def runInit (shaderSlots : Nat) (m : GLRenderManager) :
    List InitCall → Except Violation (List (Option Ptr) × GLRenderManager)
  | [] => .ok ([], m)
  | c :: cs =>
    match c.run shaderSlots m with
    | .error e => .error e
    | .ok r =>
      match runInit shaderSlots r.2 cs with
      | .error e => .error e
      | .ok rs => .ok (r.1 :: rs.1, rs.2)

/-- The init-step type the specification pairs with each init operation. -/
def InitCall.expectedType : InitCall → GLRInitStepType
  | .CreateTexture .. => .CREATE_TEXTURE
  | .CreateBuffer .. => .CREATE_BUFFER
  | .CreateShader .. => .CREATE_SHADER
  | .CreateFramebuffer .. => .CREATE_FRAMEBUFFER
  | .CreateInputLayout .. => .CREATE_INPUT_LAYOUT
  | .CreateProgram .. => .CREATE_PROGRAM
  | .TextureImage .. => .TEXTURE_IMAGE
  | .FinalizeTexture .. => .TEXTURE_FINALIZE
  | .BufferSubdata .. => .BUFFER_SUBDATA

/-- The handle a creation step references; `none` for a step that creates nothing. -/
def GLRInitStep.created (s : GLRInitStep) : Option Ptr :=
  match s.payload with
  | .create_texture texture => some texture
  | .create_buffer buffer _ _ => some buffer
  | .create_shader shader _ _ => some shader
  | .create_framebuffer framebuffer => some framebuffer
  | .create_program program _ _ _ => some program
  | .create_input_layout inputLayout => some inputLayout
  | _ => none

/-- The arguments the specification asks of an init operation: a program has at least
one shader, a buffer write lies inside its buffer. -/
def InitCall.asSpecified (m : GLRenderManager) : InitCall → Prop
  | .CreateProgram shaders .. => 1 ≤ shaders.length
  | .BufferSubdata buffer offset size .. =>
    ∃ a b, buffer = some a ∧ m.heap.buffers[a]? = some b ∧ offset + size ≤ b.size_ ∧
      b.size_ < 2 ^ SIZE_BITS
  | _ => True

/-- The arguments with which an init operation passes its assertions: as specified,
and a program has no more shaders than the init step has slots for, and no null name
among its uniform queries and semantics. -/
def InitCall.inRange (shaderSlots : Nat) (m : GLRenderManager) (c : InitCall) : Prop :=
  c.asSpecified m ∧
    match c with
    | .CreateProgram shaders semantics queries _ _ _ =>
      shaders.length ≤ shaderSlots ∧ (∀ iter ∈ queries, iter.name.isSome = true) ∧
        ∀ sem ∈ semantics, sem.attrib.isSome = true
    | _ => True

/-- The manager `m` with the commands `ds` appended to the step at address `p` and
`cp` as the bound program, everything else as in `m`: the shape every successful
recording call gives the manager. -/
def GLRenderManager.withRecorded (m : GLRenderManager) (p : Nat) (ds : List GLRRenderData)
    (cp : Ptr) : GLRenderManager :=
  let step := m.heap.steps p
  let step1 := { step with commands := step.commands ++ ds }
  { m with heap := { m.heap with steps := Function.update m.heap.steps p step1 }
           curProgram_ := cp }

/-- Whether the call is `BindProgram`, the one recording call that also writes
`curProgram_`. -/
def RecordCall.isBindProgram : RecordCall → Bool
  | .BindProgram _ => true
  | _ => false

/-- The assertions a recording call makes besides the open-step one. -/
def Violation.isArgumentCheck : Violation → Bool
  | .textureSlot => true
  | .nullProgram => true
  | .noCurProgram => true
  | _ => false

/-- The registry of frame slot `i`. -/
def GLRenderManager.registry (m : GLRenderManager) (i : Fin MAX_INFLIGHT_FRAMES) :
    Finset Ptr :=
  (m.frameData_ i).activePushBuffers

/-! ## Deletion calls as data -/

/-- A deletion call of the manager, named by the kind of handle it takes. -/
inductive DeleteCall
  | DeleteShader
  | DeleteProgram
  | DeleteBuffer
  | DeleteTexture
  | DeleteInputLayout
  | DeleteFramebuffer
  | DeletePushBuffer
  deriving DecidableEq, Repr

/-- The deletion call made on the manager `m` with the handle `h`. -/
def DeleteCall.run (m : GLRenderManager) (h : Ptr) : DeleteCall → GLRenderManager
  | .DeleteShader => m.DeleteShader h
  | .DeleteProgram => m.DeleteProgram h
  | .DeleteBuffer => m.DeleteBuffer h
  | .DeleteTexture => m.DeleteTexture h
  | .DeleteInputLayout => m.DeleteInputLayout h
  | .DeleteFramebuffer => m.DeleteFramebuffer h
  | .DeletePushBuffer => m.DeletePushBuffer h

/-- The pending-deletion list the specification pairs with each deletion call: the list
of the call's own handle type. -/
def DeleteCall.pending (d : GLDeleter) : DeleteCall → List Ptr
  | .DeleteShader => d.shaders
  | .DeleteProgram => d.programs
  | .DeleteBuffer => d.buffers
  | .DeleteTexture => d.textures
  | .DeleteInputLayout => d.inputLayouts
  | .DeleteFramebuffer => d.framebuffers
  | .DeletePushBuffer => d.pushBuffers

/-! ## GLRProgram::GetUniformLoc -/

/-- What one call of `GetUniformLoc` gives: the location returned, the number of calls
of `glGetUniformLocation` it made, and the program object afterwards. -/
structure UniformLookup where
  loc : Int
  deviceQueries : Nat
  program : GLRProgram

/-- `int GetUniformLoc(const char *name)`.  `glGetUniformLocation` is the device, a
function of the program id and the name.  In the branch that stores, `find` has failed,
so `uniformCache_[name] = info` inserts a new entry. -/
def GLRProgram.GetUniformLoc (glGetUniformLocation : Nat → String → Int) (p : GLRProgram)
    (name : String) : UniformLookup :=
  match p.uniformCache_.lookup name with
  | some loc_ => { loc := loc_, deviceQueries := 0, program := p }
  | none =>
    let loc := glGetUniformLocation p.program name
    { loc := loc, deviceQueries := 1
      program := { p with uniformCache_ := (name, loc) :: p.uniformCache_ } }

/-- A sequence of `GetUniformLoc` calls on one program, each with the device as it
answers at that time and a name: the program object afterwards. -/
def GLRProgram.lookups (p : GLRProgram) : List ((Nat → String → Int) × String) → GLRProgram
  | [] => p
  | c :: cs => GLRProgram.lookups (p.GetUniformLoc c.1 c.2).program cs

/-! ## ReplacedTexture (GPU/Common/ReplacedTexture.h) -/

/-- `enum class ReplacementState : uint32_t` -/
inductive ReplacementState
  | UNINITIALIZED
  | POPULATED
  | PENDING
  | NOT_FOUND
  | ACTIVE
  | CANCEL_INIT
  deriving DecidableEq, Repr

/-- `enum class ReplacedTextureAlpha` -/
inductive ReplacedTextureAlpha
  | UNKNOWN
  | FULL
  deriving DecidableEq, Repr

/-- `struct ReplacedTexture`, without its level list, time stamp, mutex and format;
pointers to objects declared elsewhere are kept as pointers. -/
structure ReplacedTexture where
  logId_ : String
  levelData_ : Ptr
  alphaStatus_ : ReplacedTextureAlpha
  threadWaitable_ : Ptr
  state_ : ReplacementState
  vfs_ : Ptr
  desc_ : Ptr
  deriving DecidableEq, Repr

/-- A `ReplacedTexture` as its in-class initialisers leave it. -/
def ReplacedTexture.fresh : ReplacedTexture :=
  { logId_ := "", levelData_ := nullptr, alphaStatus_ := .UNKNOWN, threadWaitable_ := nullptr
    state_ := .UNINITIALIZED, vfs_ := nullptr, desc_ := nullptr }

/-- `inline ReplacementState State() const` -/
def ReplacedTexture.State (t : ReplacedTexture) : ReplacementState :=
  t.state_

/-- `void SetState(ReplacementState state)` -/
def ReplacedTexture.SetState (t : ReplacedTexture) (state : ReplacementState) :
    Except Violation ReplacedTexture :=
  if !(state != t.state_) then .error .sameState
  else .ok { t with state_ := state }

/-! ## The render-thread queue -/

/-- `enum class GLRRunType` -/
inductive GLRRunType
  | PRESENT
  | SYNC
  | EXIT
  deriving DecidableEq, Repr

/-- `struct GLRRenderThreadTask` -/
structure GLRRenderThreadTask where
  steps : List Ptr
  initSteps : List GLRInitStep
  frame : Int
  runType : GLRRunType
  deriving DecidableEq, Repr

/-- Modelled from the spec: the producer's push onto `renderThreadQueue_` and the
consumer's `ThreadFrame` are defined in GLRenderManager.cpp, which is not part of the
excerpt.  The queue is one shared FIFO guarded by a mutex, so a run of the two threads
is a sequence of these two events; `executed` is the list of tasks the consumer has
popped and executed, in order. -/
structure RenderThreadQueue where
  renderThreadQueue_ : List GLRRenderThreadTask
  executed : List GLRRenderThreadTask
  deriving DecidableEq, Repr

/-- Modelled from the spec: the two events on the queue, the producer pushing a task and
the consumer running one iteration of `ThreadFrame`. -/
inductive QueueEvent
  | push (task : GLRRenderThreadTask)
  | threadFrame
  deriving DecidableEq, Repr

/-- Modelled from the spec: the producer pushes at the back; `ThreadFrame` pops exactly
one task from the front and executes it, and does nothing while the queue is empty. -/
def RenderThreadQueue.step (q : RenderThreadQueue) : QueueEvent → RenderThreadQueue
  | .push task => { q with renderThreadQueue_ := q.renderThreadQueue_ ++ [task] }
  | .threadFrame =>
    match q.renderThreadQueue_ with
    | [] => q
    | task :: rest => { renderThreadQueue_ := rest, executed := q.executed ++ [task] }

/-- Modelled from the spec: an interleaving of the two threads, event by event. -/
def RenderThreadQueue.run (q : RenderThreadQueue) : List QueueEvent → RenderThreadQueue
  | [] => q
  | e :: es => RenderThreadQueue.run (q.step e) es

/-- The tasks a schedule pushes, in push order. -/
def pushedTasks : List QueueEvent → List GLRRenderThreadTask
  | [] => []
  | .push task :: es => task :: pushedTasks es
  | .threadFrame :: es => pushedTasks es

/-- The queue of a new manager: nothing queued, nothing executed. -/
def RenderThreadQueue.empty : RenderThreadQueue :=
  { renderThreadQueue_ := [], executed := [] }

/-! ## PopupMultiChoice (Common/UI/PopupScreens.h) -/

/-- The least value of `int`. -/
def INT_MIN : Int := -2147483648

/-- The greatest value of `int`. -/
def INT_MAX : Int := 2147483647

/-- The `int` that a 32-bit signed operation gives when its exact result is `x`: `x`
itself when it is an `int`, and the two's complement wrap otherwise (signed overflow is
undefined in C++; this is what the compiled addition and subtraction compute). -/
def wrapInt (x : Int) : Int :=
  (x + 2 ^ 31) % 2 ^ 32 - 2 ^ 31

/-- `class PopupMultiChoice`: `pointee` is the `int` that `value_` points to; the text,
the choices, the category and the screen manager are only stored and are left out. -/
structure PopupMultiChoice where
  pointee : Int
  minVal_ : Int
  numChoices_ : Int
  restoreFocus_ : Bool
  hidden_ : Finset Int

/-- The constructor `PopupMultiChoice(int *value, text, choices, int minVal,
int numChoices, category, screenManager, layoutParams)`, on the `int` that `value`
points to: the two `if` statements of its body. -/
def PopupMultiChoice.new (value minVal numChoices : Int) : PopupMultiChoice :=
  let v1 :=
    if value ≥ wrapInt (numChoices + minVal) then wrapInt (wrapInt (numChoices + minVal) - 1)
    else value
  let v2 := if v1 < minVal then minVal else v1
  { pointee := v2, minVal_ := minVal, numChoices_ := numChoices, restoreFocus_ := false
    hidden_ := ∅ }

/-! ## Lemmas on recording -/

namespace GLRenderManager

theorem curStepIsRender_iff (m : GLRenderManager) :
    m.curStepIsRender = true ↔
      ∃ p, m.curRenderStep_ = some p ∧ (m.heap.steps p).stepType = GLRStepType.RENDER := by
  unfold curStepIsRender
  cases h : m.curRenderStep_ with
  | none => simp
  | some p => simp

theorem pushCommand_of_open (m : GLRenderManager) (p : Nat) (data : GLRRenderData)
    (h : m.curRenderStep_ = some p) :
    m.pushCommand data = .ok (m.appendCommand p data) := by
  unfold pushCommand
  rw [h]

theorem appendCommand_eq (m : GLRenderManager) (p : Nat) (d : GLRRenderData) :
    m.appendCommand p d = m.withRecorded p [d] m.curProgram_ := rfl

theorem withRecorded_nil (m : GLRenderManager) (p : Nat) :
    m.withRecorded p [] m.curProgram_ = m := by
  simp [withRecorded]

theorem openEmptyStep_render : openEmptyStep.curStepIsRender = true := rfl

theorem openEmptyStep_cur : openEmptyStep.curRenderStep_ = some 0 := rfl

theorem openEmptyStep_prog : openEmptyStep.curProgram_ = some 0 := rfl

theorem openEmptyStep_cmds (d : GLRRenderData) :
    ((openEmptyStep.appendCommand 0 d).heap.steps 0).commands = [d] := by
  simp [appendCommand, openEmptyStep, initial]

theorem openEmptyStep_cmds0 : (openEmptyStep.heap.steps 0).commands = [] := rfl

end GLRenderManager

open GLRenderManager in
/-- A successful recording call on an open render step leaves the manager with the
commands it records appended to that step, and these are at most one. -/
theorem run_of_open (m m1 : GLRenderManager) (p : Nat) (c : RecordCall)
    (hp : m.curRenderStep_ = some p) (hr : (m.heap.steps p).stepType = GLRStepType.RENDER)
    (h : c.run m = .ok m1) :
    m1 = m.withRecorded p c.recorded m1.curProgram_ ∧ c.recorded.length ≤ 1 := by
  have hr1 : m.curStepIsRender = true := (curStepIsRender_iff m).2 ⟨p, hp, hr⟩
  cases c <;> simp [RecordCall.run, GLRenderManager.SetViewport, GLRenderManager.SetScissor,
      GLRenderManager.SetDepth, GLRenderManager.SetRaster, GLRenderManager.SetStencilFunc,
      GLRenderManager.SetStencilOp, GLRenderManager.SetStencilDisabled,
      GLRenderManager.SetBlendAndMask, GLRenderManager.SetNoBlendAndMask,
      GLRenderManager.SetLogicOp, GLRenderManager.SetBlendFactor,
      GLRenderManager.SetTextureSampler, GLRenderManager.SetTextureLod,
      GLRenderManager.BindTexture, GLRenderManager.BindProgram, GLRenderManager.SetUniformI,
      GLRenderManager.SetUniformI1, GLRenderManager.SetUniformUI, GLRenderManager.SetUniformUI1,
      GLRenderManager.SetUniformF, GLRenderManager.SetUniformF1,
      GLRenderManager.SetUniformFByName, GLRenderManager.SetUniformM4x4,
      GLRenderManager.SetUniformM4x4Stereo, GLRenderManager.SetUniformM4x4ByName,
      GLRenderManager.Clear, GLRenderManager.Draw, GLRenderManager.DrawIndexed,
      GLRenderManager.TextureSubImage, hr1, hp, GLRenderManager.pushCommand_of_open m p _ hp,
      RecordCall.recorded, openEmptyStep_render, openEmptyStep_cur, openEmptyStep_prog,
      GLRenderManager.pushCommand_of_open openEmptyStep 0 _ openEmptyStep_cur,
      openEmptyStep_cmds] at h ⊢
  all_goals first | (subst h; exact rfl) | skip
  all_goals
    split at h
    all_goals first
      | (exfalso; simp at h; done)
      | (simp only [Except.ok.injEq] at h; subst h
         (try simp [*, openEmptyStep_cmds, openEmptyStep_cmds0])
         first | rfl | exact (withRecorded_nil m p).symm)

open GLRenderManager in
/-- A recording call other than `BindProgram` leaves the bound program as it was. -/
theorem run_curProgram (m m1 : GLRenderManager) (p : Nat) (c : RecordCall)
    (hp : m.curRenderStep_ = some p) (hr : (m.heap.steps p).stepType = GLRStepType.RENDER)
    (hc : c.isBindProgram = false) (h : c.run m = .ok m1) :
    m1.curProgram_ = m.curProgram_ := by
  have hr1 : m.curStepIsRender = true := (curStepIsRender_iff m).2 ⟨p, hp, hr⟩
  cases c <;> simp [RecordCall.run, GLRenderManager.SetViewport, GLRenderManager.SetScissor,
      GLRenderManager.SetDepth, GLRenderManager.SetRaster, GLRenderManager.SetStencilFunc,
      GLRenderManager.SetStencilOp, GLRenderManager.SetStencilDisabled,
      GLRenderManager.SetBlendAndMask, GLRenderManager.SetNoBlendAndMask,
      GLRenderManager.SetLogicOp, GLRenderManager.SetBlendFactor,
      GLRenderManager.SetTextureSampler, GLRenderManager.SetTextureLod,
      GLRenderManager.BindTexture, GLRenderManager.SetUniformI,
      GLRenderManager.SetUniformI1, GLRenderManager.SetUniformUI, GLRenderManager.SetUniformUI1,
      GLRenderManager.SetUniformF, GLRenderManager.SetUniformF1,
      GLRenderManager.SetUniformFByName, GLRenderManager.SetUniformM4x4,
      GLRenderManager.SetUniformM4x4Stereo, GLRenderManager.SetUniformM4x4ByName,
      GLRenderManager.Clear, GLRenderManager.Draw, GLRenderManager.DrawIndexed,
      GLRenderManager.TextureSubImage, hr1, hp, GLRenderManager.pushCommand_of_open m p _ hp,
      RecordCall.isBindProgram] at h hc
  all_goals first | (subst h; exact rfl) | skip
  all_goals
    split at h
    all_goals first
      | (exfalso; simp at h; done)
      | (simp only [Except.ok.injEq] at h; subst h; rfl)

open GLRenderManager in
/-- On an open render step a recording call can only fail one of its argument checks. -/
theorem run_error_of_open (m : GLRenderManager) (p : Nat) (c : RecordCall) (e : Violation)
    (hp : m.curRenderStep_ = some p) (hr : (m.heap.steps p).stepType = GLRStepType.RENDER)
    (h : c.run m = .error e) : e.isArgumentCheck = true := by
  have hr1 : m.curStepIsRender = true := (curStepIsRender_iff m).2 ⟨p, hp, hr⟩
  cases c <;> simp [RecordCall.run, GLRenderManager.SetViewport, GLRenderManager.SetScissor,
      GLRenderManager.SetDepth, GLRenderManager.SetRaster, GLRenderManager.SetStencilFunc,
      GLRenderManager.SetStencilOp, GLRenderManager.SetStencilDisabled,
      GLRenderManager.SetBlendAndMask, GLRenderManager.SetNoBlendAndMask,
      GLRenderManager.SetLogicOp, GLRenderManager.SetBlendFactor,
      GLRenderManager.SetTextureSampler, GLRenderManager.SetTextureLod,
      GLRenderManager.BindTexture, GLRenderManager.BindProgram, GLRenderManager.SetUniformI,
      GLRenderManager.SetUniformI1, GLRenderManager.SetUniformUI, GLRenderManager.SetUniformUI1,
      GLRenderManager.SetUniformF, GLRenderManager.SetUniformF1,
      GLRenderManager.SetUniformFByName, GLRenderManager.SetUniformM4x4,
      GLRenderManager.SetUniformM4x4Stereo, GLRenderManager.SetUniformM4x4ByName,
      GLRenderManager.Clear, GLRenderManager.Draw, GLRenderManager.DrawIndexed,
      GLRenderManager.TextureSubImage, hr1, hp, GLRenderManager.pushCommand_of_open m p _ hp]
      at h
  all_goals
    split at h
    all_goals first
      | (exfalso; simp at h; done)
      | (simp only [Except.error.injEq] at h; subst h; rfl)

/-! ## Recording calls: claims C1 to C3 -/

open GLRenderManager in
/-- C1: for every state- or draw-recording call other than BindTexture, the open-step
assertion passes exactly when IsInRenderPass holds, which is when a step is open and of
RENDER type; with no step open, or an open step of another type, the call ends in the
open-step violation and leaves no recorded command. -/
theorem recording_requires_render_pass (m : GLRenderManager) (c : RecordCall)
    (hc : c.isBindTexture = false) :
    (c.run m ≠ .error .openStep ↔ m.IsInRenderPass = true) ∧
    (m.IsInRenderPass = true ↔
      ∃ p, m.curRenderStep_ = some p ∧ (m.heap.steps p).stepType = GLRStepType.RENDER) ∧
    ((m.curRenderStep_ = none ∨
        ∃ p, m.curRenderStep_ = some p ∧ (m.heap.steps p).stepType ≠ GLRStepType.RENDER) →
      c.run m = .error .openStep) := by
  have key : m.curStepIsRender = false → c.run m = .error .openStep := by
    intro hr
    cases c <;> simp_all [RecordCall.run, RecordCall.isBindTexture,
      GLRenderManager.SetViewport, GLRenderManager.SetScissor,
      GLRenderManager.SetDepth, GLRenderManager.SetRaster, GLRenderManager.SetStencilFunc,
      GLRenderManager.SetStencilOp, GLRenderManager.SetStencilDisabled,
      GLRenderManager.SetBlendAndMask, GLRenderManager.SetNoBlendAndMask,
      GLRenderManager.SetLogicOp, GLRenderManager.SetBlendFactor,
      GLRenderManager.SetTextureSampler, GLRenderManager.SetTextureLod,
      GLRenderManager.BindProgram, GLRenderManager.SetUniformI,
      GLRenderManager.SetUniformI1, GLRenderManager.SetUniformUI, GLRenderManager.SetUniformUI1,
      GLRenderManager.SetUniformF, GLRenderManager.SetUniformF1,
      GLRenderManager.SetUniformFByName, GLRenderManager.SetUniformM4x4,
      GLRenderManager.SetUniformM4x4Stereo, GLRenderManager.SetUniformM4x4ByName,
      GLRenderManager.Clear, GLRenderManager.Draw, GLRenderManager.DrawIndexed,
      GLRenderManager.TextureSubImage]
  refine ⟨?_, curStepIsRender_iff m, ?_⟩
  · unfold IsInRenderPass
    constructor
    · intro h
      by_contra hn
      exact h (key (by simpa using hn))
    · intro hr h
      obtain ⟨p, hp, hs⟩ := (curStepIsRender_iff m).1 hr
      have := run_error_of_open m p c _ hp hs h
      simp [Violation.isArgumentCheck] at this
  · intro h
    apply key
    rcases h with h | ⟨p, hp, hs⟩
    · simp [curStepIsRender, h]
    · simp [curStepIsRender, hp, hs]

/-- Witness for C1: a draw on a manager with no open step ends in the open-step
violation. -/
theorem recording_requires_render_pass_witness :
    (RecordCall.Draw (some 0) (some 1) 16 4 0 3).isBindTexture = false ∧
      (RecordCall.Draw (some 0) (some 1) 16 4 0 3).run GLRenderManager.initial =
        .error .openStep :=
  ⟨rfl, (recording_requires_render_pass GLRenderManager.initial
    (RecordCall.Draw (some 0) (some 1) 16 4 0 3) rfl).2.2 (Or.inl rfl)⟩

open GLRenderManager in
/-- C2: on a manager with an open render step, a state- or draw-recording call (any but
BindProgram) that passes its checks changes only the command list of the open step: the
init-step list, the list of steps, every other step, the type of the open step, the
frame slots with their push-buffer registries, the pending-deletion lists, the frame
index and the in-flight depths are as before; the only other outcome is a failed
argument check. -/
theorem recording_changes_only_open_step (m : GLRenderManager) (p : Nat) (c : RecordCall)
    (hp : m.curRenderStep_ = some p) (hr : (m.heap.steps p).stepType = GLRStepType.RENDER)
    (hc : c.isBindProgram = false) :
    (∀ e, c.run m = .error e → e.isArgumentCheck = true) ∧
    ∀ m1, c.run m = .ok m1 →
      m1 = m.withRecorded p c.recorded m.curProgram_ ∧
      m1.initSteps_ = m.initSteps_ ∧
      m1.steps_ = m.steps_ ∧
      (∀ q, q ≠ p → m1.heap.steps q = m.heap.steps q) ∧
      (m1.heap.steps p).stepType = (m.heap.steps p).stepType ∧
      (m1.heap.steps p).passData = (m.heap.steps p).passData ∧
      (m1.heap.steps p).commands = (m.heap.steps p).commands ++ c.recorded ∧
      m1.curRenderStep_ = m.curRenderStep_ ∧
      (∀ i, m1.registry i = m.registry i) ∧
      m1.frameData_ = m.frameData_ ∧
      m1.deleter_ = m.deleter_ ∧
      m1.curFrame_ = m.curFrame_ ∧
      m1.inflightFrames_ = m.inflightFrames_ ∧
      m1.newInflightFrames_ = m.newInflightFrames_ := by
  refine ⟨fun e h => run_error_of_open m p c e hp hr h, ?_⟩
  intro m1 h
  have h1 := (run_of_open m m1 p c hp hr h).1
  rw [run_curProgram m m1 p c hp hr hc h] at h1
  refine ⟨h1, ?_⟩
  rw [h1]
  simp [withRecorded, registry]
  intro q hq
  simp [Function.update_noteq hq]

/-- Witness for C2: a viewport change on the empty open render step succeeds and leaves
the init-step list and the list of steps empty. -/
theorem recording_changes_only_open_step_witness :
    ∃ m1, (RecordCall.SetViewport ⟨0, 0, 480, 272, 0, 1⟩).run openEmptyStep = .ok m1 ∧
      m1.initSteps_ = [] ∧ m1.steps_ = [] ∧
      (m1.heap.steps 0).commands = [⟨.VIEWPORT, .viewport ⟨0, 0, 480, 272, 0, 1⟩⟩] :=
  ⟨openEmptyStep.appendCommand 0 ⟨.VIEWPORT, .viewport ⟨0, 0, 480, 272, 0, 1⟩⟩, rfl,
    ((recording_changes_only_open_step openEmptyStep 0
      (RecordCall.SetViewport ⟨0, 0, 480, 272, 0, 1⟩) rfl rfl rfl).2 _ rfl).2.1,
    ((recording_changes_only_open_step openEmptyStep 0
      (RecordCall.SetViewport ⟨0, 0, 480, 272, 0, 1⟩) rfl rfl rfl).2 _ rfl).2.2.1,
    by simp [GLRenderManager.appendCommand, openEmptyStep, GLRenderManager.initial]⟩

/-- An in-range write passes the assertions of BufferSubdata. -/
theorem bufferSubdata_in_range (m : GLRenderManager) (a : Nat) (b : GLRBuffer)
    (offset size : Nat) (data : Ptr) (deleteData : Bool)
    (hb : m.heap.buffers[a]? = some b) (hin : offset + size ≤ b.size_)
    (hs : b.size_ < 2 ^ SIZE_BITS) :
    m.BufferSubdata (some a) offset size data deleteData =
      .ok (m.pushInitStep ⟨.BUFFER_SUBDATA,
        .buffer_subdata (some a) (castInt offset) (castInt size) data deleteData⟩) := by
  have hw : offset ≤ (b.size_ + 2 ^ SIZE_BITS - size) % 2 ^ SIZE_BITS := by
    simp only [SIZE_BITS] at hs ⊢
    omega
  simp [GLRenderManager.BufferSubdata, hb, hw]

/-- A program with at least one shader, no more than the slots, and no null name is
created. -/
theorem createProgram_in_range (shaderSlots : Nat) (m : GLRenderManager) (shaders : List Ptr)
    (semantics : List Semantic) (queries : List UniformLocQuery)
    (initializers : List Initializer) (locData : Ptr) (flags : GLRProgramFlags)
    (h1 : 1 ≤ shaders.length) (h2 : shaders.length ≤ shaderSlots)
    (hq : ∀ iter ∈ queries, iter.name.isSome = true)
    (hs : ∀ sem ∈ semantics, sem.attrib.isSome = true) :
    ∃ m1, GLRenderManager.CreateProgram shaderSlots m shaders semantics queries initializers
        locData flags = .ok (some m.heap.programs.length, m1) ∧
      m1.initSteps_ = m.initSteps_ ++ [⟨.CREATE_PROGRAM, .create_program
        (some m.heap.programs.length) flags.supportDualSource shaders
        (castInt shaders.length)⟩] ∧
      m1.curRenderStep_ = m.curRenderStep_ ∧ m1.steps_ = m.steps_ ∧
      m1.heap.steps = m.heap.steps ∧ m1.heap.buffers = m.heap.buffers := by
  have h3 : 0 < shaders.length := h1
  have hq1 : (queries.all fun iter => iter.name.isSome) = true := List.all_eq_true.2 hq
  have hs1 : (semantics.all fun sem => sem.attrib.isSome) = true := List.all_eq_true.2 hs
  simp [GLRenderManager.CreateProgram, h2, h3, hq1, hs1, GLRenderManager.pushInitStep]

/-- An init operation with arguments in range succeeds and appends one init step. -/
theorem initCall_run_in_range (shaderSlots : Nat) (m : GLRenderManager) (c : InitCall)
    (h : c.inRange shaderSlots m) :
    ∃ r m1 s, c.run shaderSlots m = .ok (r, m1) ∧
      m1.initSteps_ = m.initSteps_ ++ [s] ∧ s.stepType = c.expectedType ∧
      s.created = r ∧
      m1.curRenderStep_ = m.curRenderStep_ ∧ m1.steps_ = m.steps_ ∧
      m1.heap.steps = m.heap.steps ∧
      (∃ extra, m1.heap.buffers = m.heap.buffers ++ extra) := by
  cases c with
  | CreateProgram shaders semantics queries initializers locData flags =>
    obtain ⟨m1, e, a, b, c, d, g⟩ := createProgram_in_range shaderSlots m shaders semantics
      queries initializers locData flags h.1 h.2.1 h.2.2.1 h.2.2.2
    refine ⟨some (some m.heap.programs.length), m1, _, ?_, a, rfl, rfl, b, c, d, [], ?_⟩
    · simp only [InitCall.run, e]
    · simp [g]
  | BufferSubdata buffer offset size data deleteData =>
    obtain ⟨⟨a, b, rfl, hb, hin, hs⟩, _⟩ := h
    refine ⟨none, m.pushInitStep ⟨.BUFFER_SUBDATA,
      .buffer_subdata (some a) (castInt offset) (castInt size) data deleteData⟩, _, ?_, rfl,
      rfl, rfl, rfl, rfl, rfl, [], ?_⟩
    · simp only [InitCall.run, bufferSubdata_in_range m a b offset size data deleteData hb hin hs]
    · simp [GLRenderManager.pushInitStep]
  | CreateBuffer target size usage =>
    exact ⟨_, _, _, rfl, rfl, rfl, rfl, rfl, rfl, rfl, _, rfl⟩
  | _ => exact ⟨_, _, _, rfl, rfl, rfl, rfl, rfl, rfl, rfl, [], by simp; rfl⟩

/-- A successful init operation has appended one init step of its type. -/
theorem initCall_shape (shaderSlots : Nat) (m m1 : GLRenderManager) (c : InitCall)
    (r : Option Ptr) (h : c.run shaderSlots m = .ok (r, m1)) :
    ∃ s, m1.initSteps_ = m.initSteps_ ++ [s] ∧ s.stepType = c.expectedType ∧
      s.created = r ∧
      m1.curRenderStep_ = m.curRenderStep_ ∧ m1.steps_ = m.steps_ ∧
      m1.heap.steps = m.heap.steps ∧
      (∃ extra, m1.heap.buffers = m.heap.buffers ++ extra) := by
  cases c with
  | CreateProgram shaders semantics queries initializers locData flags =>
    simp only [InitCall.run, GLRenderManager.CreateProgram] at h
    split at h
    · simp at h
    · rename_i x r1 hx
      split at hx
      · simp at hx
      · split at hx
        · simp at hx
        · split at hx
          · simp at hx
          · split at hx
            · simp at hx
            · simp only [Except.ok.injEq] at hx h
              subst hx
              simp only [Prod.mk.injEq] at h
              obtain ⟨rfl, rfl⟩ := h
              exact ⟨_, rfl, rfl, rfl, rfl, rfl, rfl, [], by simp [GLRenderManager.pushInitStep]⟩
  | BufferSubdata buffer offset size data deleteData =>
    simp only [InitCall.run, GLRenderManager.BufferSubdata] at h
    split at h
    · simp at h
    · rename_i x r1 hx
      split at hx
      · simp at hx
      · split at hx
        · simp at hx
        · split at hx
          · simp at hx
          · simp only [Except.ok.injEq] at hx h
            subst hx
            simp only [Prod.mk.injEq] at h
            obtain ⟨rfl, rfl⟩ := h
            exact ⟨_, rfl, rfl, rfl, rfl, rfl, rfl, [], by simp [GLRenderManager.pushInitStep]⟩
  | CreateBuffer target size usage =>
    simp only [InitCall.run, Except.ok.injEq, Prod.mk.injEq] at h
    obtain ⟨rfl, rfl⟩ := h
    exact ⟨_, rfl, rfl, rfl, rfl, rfl, rfl, _, rfl⟩
  | _ =>
    simp only [InitCall.run, Except.ok.injEq, Prod.mk.injEq] at h
    obtain ⟨rfl, rfl⟩ := h
    exact ⟨_, rfl, rfl, rfl, rfl, rfl, rfl, [], by simp; rfl⟩

theorem inRange_of_buffers_append (shaderSlots : Nat) (m m1 : GLRenderManager)
    (c : InitCall) (hb : ∃ extra, m1.heap.buffers = m.heap.buffers ++ extra)
    (h : c.inRange shaderSlots m) : c.inRange shaderSlots m1 := by
  obtain ⟨extra, hb⟩ := hb
  cases c with
  | BufferSubdata buffer offset size data deleteData =>
    obtain ⟨⟨a, b, rfl, hab, hin, hs⟩, _⟩ := h
    refine ⟨⟨a, b, rfl, ?_, hin, hs⟩, trivial⟩
    have hlt : a < m.heap.buffers.length := by
      by_contra hn
      rw [List.getElem?_eq_none (by omega)] at hab
      exact absurd hab (by simp)
    rw [hb, List.getElem?_append_left hlt]
    exact hab
  | _ => exact h

theorem runInit_shape (shaderSlots : Nat) (calls : List InitCall) :
    ∀ (m m1 : GLRenderManager) (rs : List (Option Ptr)),
      runInit shaderSlots m calls = .ok (rs, m1) →
      ∃ steps, m1.initSteps_ = m.initSteps_ ++ steps ∧
        steps.map GLRInitStep.stepType = calls.map InitCall.expectedType ∧
        steps.map GLRInitStep.created = rs ∧
        m1.curRenderStep_ = m.curRenderStep_ ∧ m1.steps_ = m.steps_ ∧
        m1.heap.steps = m.heap.steps := by
  induction calls with
  | nil =>
    intro m m1 rs h
    simp only [runInit, Except.ok.injEq, Prod.mk.injEq] at h
    obtain ⟨rfl, rfl⟩ := h
    exact ⟨[], by simp, rfl, rfl, rfl, rfl, rfl⟩
  | cons c rest ih =>
    intro m m1 rs h
    simp only [runInit] at h
    split at h
    · simp at h
    · rename_i x r hc
      split at h
      · simp at h
      · rename_i y rs1 hrest
        simp only [Except.ok.injEq, Prod.mk.injEq] at h
        obtain ⟨rfl, rfl⟩ := h
        obtain ⟨s, hs1, hs2, hs3, hs4, hs5, hs6, _⟩ :=
          initCall_shape shaderSlots m r.2 c r.1 hc
        obtain ⟨steps, ht1, ht2, ht3, ht4, ht5, ht6⟩ := ih r.2 rs1.2 rs1.1 hrest
        refine ⟨s :: steps, ?_, ?_, ?_, ?_, ?_, ?_⟩
        · rw [ht1, hs1]; simp
        · simp [hs2, ht2]
        · simp [hs3, ht3]
        · rw [ht4, hs4]
        · rw [ht5, hs5]
        · rw [ht6, hs6]

theorem runInit_ok (shaderSlots : Nat) (calls : List InitCall) :
    ∀ m : GLRenderManager, (∀ c ∈ calls, c.inRange shaderSlots m) →
      ∃ rs m1, runInit shaderSlots m calls = .ok (rs, m1) := by
  induction calls with
  | nil => intro m _; exact ⟨[], m, rfl⟩
  | cons c rest ih =>
    intro m h
    obtain ⟨r, m2, s, hrun, _, _, _, _, _, _, hb⟩ :=
      initCall_run_in_range shaderSlots m c (h c (List.mem_cons_self _ _))
    obtain ⟨rs, m1, hrest⟩ := ih m2 (fun c1 hc1 =>
      inRange_of_buffers_append shaderSlots m m2 c1 hb (h c1 (List.mem_cons_of_mem _ hc1)))
    exact ⟨r :: rs, m1, by simp only [runInit, hrun, hrest]⟩

/-- C4, as the code has it: on every manager, with or without an open step, an init
operation whose arguments are in range (for CreateProgram at least one shader, no more
than the init step has slots for, and no null name among the uniform queries and
semantics; for BufferSubdata a write inside an allocated buffer) succeeds, appends exactly one init step of the matching type to the init-step list and
leaves the open step, the list of steps and every step as they were. -/
theorem init_operation_appends_one_step (shaderSlots : Nat) (m : GLRenderManager)
    (c : InitCall) (h : c.inRange shaderSlots m) :
    ∃ r m1 s, c.run shaderSlots m = .ok (r, m1) ∧
      m1.initSteps_ = m.initSteps_ ++ [s] ∧ s.stepType = c.expectedType ∧
      m1.curRenderStep_ = m.curRenderStep_ ∧ m1.steps_ = m.steps_ ∧
      m1.heap.steps = m.heap.steps := by
  obtain ⟨r, m1, s, h1, h2, h3, _, h5, h6, h7, _⟩ := initCall_run_in_range shaderSlots m c h
  exact ⟨r, m1, s, h1, h2, h3, h5, h6, h7⟩

/-- Witness for C4: a program of two shaders, with three slots in the init step, created
on a fresh manager, which has no open step. -/
theorem init_operation_appends_one_step_witness :
    ∃ r m1 s,
      (InitCall.CreateProgram [some 0, some 1] [] [] [] nullptr ⟨false, false, false, false⟩).run
        3 GLRenderManager.initial = .ok (r, m1) ∧
      m1.initSteps_ = GLRenderManager.initial.initSteps_ ++ [s] ∧
      s.stepType =
        (InitCall.CreateProgram [some 0, some 1] [] [] [] nullptr
          ⟨false, false, false, false⟩).expectedType ∧
      m1.curRenderStep_ = GLRenderManager.initial.curRenderStep_ ∧
      m1.steps_ = GLRenderManager.initial.steps_ ∧
      m1.heap.steps = GLRenderManager.initial.heap.steps :=
  init_operation_appends_one_step 3 GLRenderManager.initial
    (InitCall.CreateProgram [some 0, some 1] [] [] [] nullptr ⟨false, false, false, false⟩)
    ⟨by simp [InitCall.asSpecified], by simp⟩

/-- C4 as stated fails: with three shader slots in the init step, CreateProgram with four
shaders ends in the capacity violation although it has at least one shader, and
CreateProgram with one shader and a uniform query without a name ends in the query-name
violation; and whatever the number of slots, some init operation that meets the stated
conditions fails. -/
theorem create_program_over_capacity_fails :
    (InitCall.CreateProgram [some 0, some 1, some 2, some 3] [] [] [] nullptr
        ⟨false, false, false, false⟩).run 3 GLRenderManager.initial =
      .error .shaderCapacity ∧
    (InitCall.CreateProgram [some 0] [] [⟨some 0, none, true⟩] [] nullptr
        ⟨false, false, false, false⟩).run 3 GLRenderManager.initial =
      .error .queryName ∧
    ¬ ∃ shaderSlots : Nat, ∀ (m : GLRenderManager) (c : InitCall),
      c.asSpecified m → ∃ r, c.run shaderSlots m = .ok r := by
  refine ⟨rfl, rfl, ?_⟩
  rintro ⟨n, h⟩
  obtain ⟨r, hr⟩ := h GLRenderManager.initial
    (.CreateProgram (List.replicate (n + 1) nullptr) [] [] [] nullptr
      ⟨false, false, false, false⟩)
    (by simp [InitCall.asSpecified])
  simp [InitCall.run, GLRenderManager.CreateProgram] at hr

/-- C5, as the code has it: TextureSubImage is a render-step command.  With no open
render step it ends in the open-step violation; with one it appends exactly one
TEXTURE_SUBIMAGE command carrying its arguments to that step and leaves the init-step
list as it was. -/
theorem textureSubImage_records_in_render_step (m : GLRenderManager) (slot : Int)
    (texture : Ptr) (level x y width height : Int) (format : DataFormat) (data : Ptr)
    (allocType : GLRAllocType) :
    (m.IsInRenderPass = false →
      m.TextureSubImage slot texture level x y width height format data allocType =
        .error .openStep) ∧
    (∀ p, m.curRenderStep_ = some p → (m.heap.steps p).stepType = GLRStepType.RENDER →
      ∃ m1, m.TextureSubImage slot texture level x y width height format data allocType =
          .ok m1 ∧
        m1.initSteps_ = m.initSteps_ ∧
        (m1.heap.steps p).commands = (m.heap.steps p).commands ++
          [⟨.TEXTURE_SUBIMAGE, .texture_subimage
            ⟨texture, data, format, level, x, y, width, height, allocType, slot⟩⟩]) := by
  constructor
  · intro h
    simp [GLRenderManager.TextureSubImage, GLRenderManager.IsInRenderPass] at h ⊢
    simp [h]
  · intro p hp hr
    have hr1 : m.curStepIsRender = true :=
      (GLRenderManager.curStepIsRender_iff m).2 ⟨p, hp, hr⟩
    refine ⟨m.appendCommand p ⟨.TEXTURE_SUBIMAGE, .texture_subimage
      ⟨texture, data, format, level, x, y, width, height, allocType, slot⟩⟩, ?_, rfl, ?_⟩
    · simp only [GLRenderManager.TextureSubImage, hr1,
        GLRenderManager.pushCommand_of_open m p _ hp]
      rfl
    · simp [GLRenderManager.appendCommand]

/-- Witness for C5: an upload recorded on the empty open render step. -/
theorem textureSubImage_records_in_render_step_witness :
    ∃ m1, openEmptyStep.TextureSubImage 0 (some 0) 0 0 0 16 16 0 (some 1) 1 = .ok m1 ∧
      m1.initSteps_ = openEmptyStep.initSteps_ ∧
      (m1.heap.steps 0).commands = (openEmptyStep.heap.steps 0).commands ++
        [⟨.TEXTURE_SUBIMAGE, .texture_subimage ⟨some 0, some 1, 0, 0, 0, 0, 16, 16, 1, 0⟩⟩] :=
  (textureSubImage_records_in_render_step openEmptyStep 0 (some 0) 0 0 0 16 16 0 (some 1) 1).2
    0 rfl rfl

/-- C5 as stated fails: with no step open TextureSubImage ends in the open-step
violation, and with a render step open its upload goes to that step, the init-step list
staying empty. -/
theorem textureSubImage_not_init_operation :
    GLRenderManager.initial.TextureSubImage 0 (some 0) 0 0 0 16 16 0 (some 1) 1 =
      .error .openStep ∧
    ∃ m1, openEmptyStep.TextureSubImage 0 (some 0) 0 0 0 16 16 0 (some 1) 1 = .ok m1 ∧
      m1.initSteps_ = [] ∧
      (m1.heap.steps 0).commands =
        [⟨.TEXTURE_SUBIMAGE, .texture_subimage ⟨some 0, some 1, 0, 0, 0, 0, 16, 16, 1, 0⟩⟩] :=
  ⟨rfl, _, rfl, rfl, rfl⟩

/-- C6: a sequence of init operations that pass their checks leaves the init-step list
as it was, followed by one init step per call in call order, each of the type of its
call and, for a creation call, referencing the handle that call returned; a sequence
whose arguments are in range passes its checks; in particular three CreateTexture calls
leave three CREATE_TEXTURE steps in call order, each referencing the handle returned by
its call. -/
theorem init_steps_appended_in_call_order (shaderSlots : Nat) (m : GLRenderManager) :
    (∀ calls rs m1, runInit shaderSlots m calls = .ok (rs, m1) →
      ∃ steps, m1.initSteps_ = m.initSteps_ ++ steps ∧
        steps.length = calls.length ∧
        steps.map GLRInitStep.stepType = calls.map InitCall.expectedType ∧
        steps.map GLRInitStep.created = rs ∧
        m1.curRenderStep_ = m.curRenderStep_ ∧ m1.steps_ = m.steps_) ∧
    (∀ calls, (∀ c ∈ calls, c.inRange shaderSlots m) →
      ∃ rs m1, runInit shaderSlots m calls = .ok (rs, m1)) ∧
    (∀ (t1 t2 t3 : GLenum) (w1 h1 d1 n1 w2 h2 d2 n2 w3 h3 d3 n3 : Int),
      ∃ m1,
        runInit shaderSlots m
          [.CreateTexture t1 w1 h1 d1 n1, .CreateTexture t2 w2 h2 d2 n2,
            .CreateTexture t3 w3 h3 d3 n3] =
          .ok ([some (some m.heap.textures.length), some (some (m.heap.textures.length + 1)),
            some (some (m.heap.textures.length + 2))], m1) ∧
        m1.initSteps_ = m.initSteps_ ++
          [⟨.CREATE_TEXTURE, .create_texture (some m.heap.textures.length)⟩,
            ⟨.CREATE_TEXTURE, .create_texture (some (m.heap.textures.length + 1))⟩,
            ⟨.CREATE_TEXTURE, .create_texture (some (m.heap.textures.length + 2))⟩]) := by
  refine ⟨?_, ?_, ?_⟩
  · intro calls rs m1 h
    obtain ⟨steps, h1, h2, h3, h4, h5, _⟩ := runInit_shape shaderSlots calls m m1 rs h
    refine ⟨steps, h1, ?_, h2, h3, h4, h5⟩
    have := congrArg List.length h2
    simpa using this
  · intro calls h
    exact runInit_ok shaderSlots calls m h
  · intro t1 t2 t3 w1 h1 d1 n1 w2 h2 d2 n2 w3 h3 d3 n3
    refine ⟨(((m.CreateTexture t1 w1 h1 d1 n1).2.CreateTexture t2 w2 h2 d2 n2).2.CreateTexture
      t3 w3 h3 d3 n3).2, ?_, ?_⟩
    · simp [runInit, InitCall.run, GLRenderManager.CreateTexture,
        GLRenderManager.pushInitStep]
    · simp [GLRenderManager.CreateTexture, GLRenderManager.pushInitStep]

/-- Witness for C6: a buffer created, written to and a texture created, on a fresh
manager. -/
theorem init_steps_appended_in_call_order_witness :
    ∃ m1 steps,
      runInit 3 GLRenderManager.initial
        [.CreateBuffer 34962 64 35048, .BufferSubdata (some 0) 16 32 (some 9) true,
          .CreateTexture 3553 16 16 1 1] = .ok ([some (some 0), none, some (some 0)], m1) ∧
      m1.initSteps_ = GLRenderManager.initial.initSteps_ ++ steps ∧
      steps.length = 3 ∧
      steps.map GLRInitStep.stepType = [.CREATE_BUFFER, .BUFFER_SUBDATA, .CREATE_TEXTURE] ∧
      steps.map GLRInitStep.created = [some (some 0), none, some (some 0)] := by
  have h : runInit 3 GLRenderManager.initial
      [.CreateBuffer 34962 64 35048, .BufferSubdata (some 0) 16 32 (some 9) true,
        .CreateTexture 3553 16 16 1 1] =
      .ok ([some (some 0), none, some (some 0)],
        (((GLRenderManager.initial.CreateBuffer 34962 64 35048).2.pushInitStep
          ⟨.BUFFER_SUBDATA, .buffer_subdata (some 0) 16 32 (some 9) true⟩).CreateTexture
            3553 16 16 1 1).2) := by
    rfl
  obtain ⟨steps, h1, h2, h3, h4, _⟩ :=
    (init_steps_appended_in_call_order 3 GLRenderManager.initial).1 _ _ _ h
  exact ⟨_, steps, h, h1, h2, h3, h4⟩

/-- C7: on a manager with an open render step, Draw succeeds and appends exactly one
command of type DRAW whose input layout, vertex buffer, offset, mode, first vertex and
count are the arguments as passed, with a null index buffer and index type 0; the
commands already in the step stay in front of it. -/
theorem draw_records_arguments (m : GLRenderManager) (p : Nat) (inputLayout buffer : Ptr)
    (offset : Nat) (mode : GLenum) (first count : Int)
    (hp : m.curRenderStep_ = some p) (hr : (m.heap.steps p).stepType = GLRStepType.RENDER) :
    ∃ m1 d, m.Draw inputLayout buffer offset mode first count = .ok m1 ∧
      (m1.heap.steps p).commands =
        (m.heap.steps p).commands ++ [⟨GLRRenderCommand.DRAW, RenderPayload.draw d⟩] ∧
      d.inputLayout = inputLayout ∧ d.buffer = buffer ∧ d.offset = offset ∧ d.mode = mode ∧
      d.first = some first ∧ d.count = count ∧ d.indexBuffer = nullptr ∧ d.indexType = 0 := by
  have hr1 : m.curStepIsRender = true :=
    (GLRenderManager.curStepIsRender_iff m).2 ⟨p, hp, hr⟩
  refine ⟨m.appendCommand p ⟨.DRAW, .draw
    ⟨inputLayout, buffer, offset, nullptr, mode, some first, count, 0, none, none⟩⟩,
    ⟨inputLayout, buffer, offset, nullptr, mode, some first, count, 0, none, none⟩,
    ?_, ?_, rfl, rfl, rfl, rfl, rfl, rfl, rfl, rfl⟩
  · simp only [GLRenderManager.Draw, hr1, GLRenderManager.pushCommand_of_open m p _ hp]
    rfl
  · simp [GLRenderManager.appendCommand]

/-- Witness for C7: a draw of three vertices from offset 16 on the empty open render
step. -/
theorem draw_records_arguments_witness :
    ∃ m1 d, openEmptyStep.Draw (some 0) (some 1) 16 4 0 3 = .ok m1 ∧
      (m1.heap.steps 0).commands =
        (openEmptyStep.heap.steps 0).commands ++
          [⟨GLRRenderCommand.DRAW, RenderPayload.draw d⟩] ∧
      d.inputLayout = some 0 ∧ d.buffer = some 1 ∧ d.offset = 16 ∧ d.mode = 4 ∧
      d.first = some 0 ∧ d.count = 3 ∧ d.indexBuffer = nullptr ∧ d.indexType = 0 :=
  draw_records_arguments openEmptyStep 0 (some 0) (some 1) 16 4 0 3 rfl rfl

/-! ## Push-buffer registries: claims C8 to C10 -/

theorem finRange_inflight : List.finRange MAX_INFLIGHT_FRAMES = [0, 1, 2] := rfl

theorem unregisterLoop_count (m : GLRenderManager) (b : Ptr) :
    (m.unregisterLoop b).2 =
      (if b ∈ m.registry 0 then 1 else 0) + (if b ∈ m.registry 1 then 1 else 0) +
        (if b ∈ m.registry 2 then 1 else 0) := by
  unfold GLRenderManager.unregisterLoop
  rw [finRange_inflight]
  simp only [List.foldl, GLRenderManager.registry]
  by_cases h0 : b ∈ (m.frameData_ 0).activePushBuffers <;>
  by_cases h1 : b ∈ (m.frameData_ 1).activePushBuffers <;>
  by_cases h2 : b ∈ (m.frameData_ 2).activePushBuffers <;>
  simp [GLRenderManager.unregisterIter, h0, h1, h2, Function.update_apply]

theorem unregisterLoop_registry (m : GLRenderManager) (b : Ptr)
    (i : Fin MAX_INFLIGHT_FRAMES) :
    (m.unregisterLoop b).1.registry i = (m.registry i).erase b := by
  have hi : i = 0 ∨ i = 1 ∨ i = 2 := by
    fin_cases i
    exacts [Or.inl rfl, Or.inr (Or.inl rfl), Or.inr (Or.inr rfl)]
  unfold GLRenderManager.unregisterLoop
  rw [finRange_inflight]
  simp only [List.foldl, GLRenderManager.registry]
  by_cases h0 : b ∈ (m.frameData_ 0).activePushBuffers <;>
  by_cases h1 : b ∈ (m.frameData_ 1).activePushBuffers <;>
  by_cases h2 : b ∈ (m.frameData_ 2).activePushBuffers <;>
  rcases hi with rfl | rfl | rfl <;>
  simp [GLRenderManager.unregisterIter, h0, h1, h2, Function.update_apply]

theorem existsUnique_slot_iff (p : Fin MAX_INFLIGHT_FRAMES → Prop) [DecidablePred p] :
    (∃! i, p i) ↔
      ((if p 0 then 1 else 0) + (if p 1 then 1 else 0) + (if p 2 then 1 else 0) : Int) = 1 := by
  have all : ∀ i : Fin MAX_INFLIGHT_FRAMES, i = 0 ∨ i = 1 ∨ i = 2 := by
    intro i
    fin_cases i
    exacts [Or.inl rfl, Or.inr (Or.inl rfl), Or.inr (Or.inr rfl)]
  have d01 : (0 : Fin MAX_INFLIGHT_FRAMES) ≠ 1 := by decide
  have d02 : (0 : Fin MAX_INFLIGHT_FRAMES) ≠ 2 := by decide
  have d12 : (1 : Fin MAX_INFLIGHT_FRAMES) ≠ 2 := by decide
  by_cases h0 : p 0 <;> by_cases h1 : p 1 <;> by_cases h2 : p 2 <;>
    simp only [h0, h1, h2, if_true, if_false] <;> norm_num
  · rintro ⟨i, _, hu⟩
    exact d01 ((hu 0 h0).trans (hu 1 h1).symm)
  · rintro ⟨i, _, hu⟩
    exact d01 ((hu 0 h0).trans (hu 1 h1).symm)
  · rintro ⟨i, _, hu⟩
    exact d02 ((hu 0 h0).trans (hu 2 h2).symm)
  · refine ⟨0, h0, fun j hj => ?_⟩
    rcases all j with rfl | rfl | rfl
    · rfl
    · exact absurd hj h1
    · exact absurd hj h2
  · rintro ⟨i, _, hu⟩
    exact d12 ((hu 1 h1).trans (hu 2 h2).symm)
  · refine ⟨1, h1, fun j hj => ?_⟩
    rcases all j with rfl | rfl | rfl
    · exact absurd hj h0
    · rfl
    · exact absurd hj h2
  · refine ⟨2, h2, fun j hj => ?_⟩
    rcases all j with rfl | rfl | rfl
    · exact absurd hj h0
    · exact absurd hj h1
    · rfl
  · rintro ⟨i, hi, _⟩
    rcases all i with rfl | rfl | rfl
    · exact h0 hi
    · exact h1 hi
    · exact h2 hi

theorem unregister_eq (m : GLRenderManager) (b : Ptr) :
    m.UnregisterPushBuffer b =
      if (m.unregisterLoop b).2 = 1 then .ok (m.unregisterLoop b).1 else .error .foundCount := by
  unfold GLRenderManager.UnregisterPushBuffer
  by_cases h : (m.unregisterLoop b).2 = 1 <;> simp [h]

theorem register_registry (m : GLRenderManager) (K i : Fin MAX_INFLIGHT_FRAMES) (b : Ptr) :
    (m.RegisterPushBuffer K b).registry i =
      if i = K then insert b (m.registry K) else m.registry i := by
  by_cases h : i = K
  · subst h
    simp [GLRenderManager.RegisterPushBuffer, GLRenderManager.registry]
  · simp [GLRenderManager.RegisterPushBuffer, GLRenderManager.registry, h,
      Function.update_noteq h]

theorem unregister_of_unique (m : GLRenderManager) (b : Ptr)
    (h : ∃! i, b ∈ m.registry i) :
    m.UnregisterPushBuffer b = .ok (m.unregisterLoop b).1 := by
  rw [unregister_eq, unregisterLoop_count, if_pos ((existsUnique_slot_iff _).1 h)]

theorem unregister_of_not_unique (m : GLRenderManager) (b : Ptr)
    (h : ¬ ∃! i, b ∈ m.registry i) :
    m.UnregisterPushBuffer b = .error .foundCount := by
  rw [unregister_eq, unregisterLoop_count,
    if_neg (fun hc => h ((existsUnique_slot_iff (fun i => b ∈ m.registry i)).2 hc))]

/-- C8: when the buffer b is registered in no slot and slot K is empty, registering b
for slot K and then unregistering it passes the found-once check, leaves slot K empty
and every other slot as it was; the same holds when the registration is the one
CreatePushBuffer makes for the buffer it allocates. -/
theorem register_then_unregister_roundtrip (m : GLRenderManager)
    (K : Fin MAX_INFLIGHT_FRAMES) (b : Ptr) (hnone : ∀ i, b ∉ m.registry i)
    (hK : m.registry K = ∅) :
    (∃ m1, (m.RegisterPushBuffer K b).UnregisterPushBuffer b = .ok m1 ∧
      m1.registry K = ∅ ∧ ∀ i, i ≠ K → m1.registry i = m.registry i) ∧
    (∀ target size, (m.CreatePushBuffer K target size).1 = b →
      ∃ m1, (m.CreatePushBuffer K target size).2.UnregisterPushBuffer b = .ok m1 ∧
        m1.registry K = ∅ ∧ ∀ i, i ≠ K → m1.registry i = m.registry i) := by
  have main : ∀ m0 : GLRenderManager, (∀ i, m0.registry i = m.registry i) →
      ∃ m1, (m0.RegisterPushBuffer K b).UnregisterPushBuffer b = .ok m1 ∧
        m1.registry K = ∅ ∧ ∀ i, i ≠ K → m1.registry i = m.registry i := by
    intro m0 h0
    have hu : ∃! i, b ∈ (m0.RegisterPushBuffer K b).registry i := by
      refine ⟨K, by simp [register_registry], ?_⟩
      intro j hj
      by_contra hne
      rw [register_registry, if_neg hne, h0] at hj
      exact hnone j hj
    refine ⟨_, unregister_of_unique _ b hu, ?_, ?_⟩
    · rw [unregisterLoop_registry, register_registry, if_pos rfl, h0, hK]
      simp
    · intro i hi
      rw [unregisterLoop_registry, register_registry, if_neg hi, h0]
      exact Finset.erase_eq_of_not_mem (hnone i)
  refine ⟨main m (fun _ => rfl), ?_⟩
  intro target size hb
  simp only [GLRenderManager.CreatePushBuffer] at hb ⊢
  rw [hb]
  exact main _ (fun _ => rfl)

/-- Witness for C8: on a fresh manager, buffer 7 registered for slot 1 and then
unregistered. -/
theorem register_then_unregister_roundtrip_witness :
    ∃ m1, (GLRenderManager.initial.RegisterPushBuffer 1 (some 7)).UnregisterPushBuffer
        (some 7) = .ok m1 ∧
      m1.registry 1 = ∅ ∧ ∀ i, i ≠ 1 → m1.registry i = GLRenderManager.initial.registry i :=
  (register_then_unregister_roundtrip GLRenderManager.initial 1 (some 7)
    (fun _ => Finset.not_mem_empty _) rfl).1

/-- C9: UnregisterPushBuffer passes its check exactly when the buffer is in the registry
of exactly one frame slot; a buffer in no slot, or in two slots, ends the call in the
found-count violation. -/
theorem unregister_passes_iff_registered_once (m : GLRenderManager) (b : Ptr) :
    ((∃ m1, m.UnregisterPushBuffer b = .ok m1) ↔ ∃! i, b ∈ m.registry i) ∧
    (m.UnregisterPushBuffer b = .error .foundCount ↔ ¬ ∃! i, b ∈ m.registry i) ∧
    ((∀ i, b ∉ m.registry i) → m.UnregisterPushBuffer b = .error .foundCount) ∧
    (∀ i j, i ≠ j → b ∈ m.registry i → b ∈ m.registry j →
      m.UnregisterPushBuffer b = .error .foundCount) := by
  refine ⟨⟨?_, ?_⟩, ⟨?_, ?_⟩, ?_, ?_⟩
  · rintro ⟨m1, h⟩
    by_contra hn
    rw [unregister_of_not_unique m b hn] at h
    simp at h
  · intro h
    exact ⟨_, unregister_of_unique m b h⟩
  · intro h hu
    rw [unregister_of_unique m b hu] at h
    simp at h
  · exact unregister_of_not_unique m b
  · intro h
    exact unregister_of_not_unique m b (fun ⟨i, hi, _⟩ => h i hi)
  · intro i j hij hi hj
    exact unregister_of_not_unique m b
      (fun ⟨k, _, hu⟩ => hij ((hu i hi).trans (hu j hj).symm))

/-- Witness for C9: buffer 7, registered for slot 1 only, is unregistered without a
violation. -/
theorem unregister_passes_iff_registered_once_witness :
    ∃ m1, (GLRenderManager.initial.RegisterPushBuffer 1 (some 7)).UnregisterPushBuffer
      (some 7) = .ok m1 :=
  (unregister_passes_iff_registered_once (GLRenderManager.initial.RegisterPushBuffer 1 (some 7))
    (some 7)).1.2
    ⟨1, by simp [register_registry], fun j hj => by
      by_contra hne
      have hj1 : some 7 ∈ (GLRenderManager.initial.RegisterPushBuffer 1 (some 7)).registry j := hj
      rw [register_registry, if_neg hne] at hj1
      exact Finset.not_mem_empty _ hj1⟩

/-- C10, as the code has it: a buffer registered for two different frame slots, starting
from a manager in which it is registered nowhere, makes UnregisterPushBuffer end in the
found-count violation; registered twice for the same slot it is in that slot's set once,
the second registration changing nothing, and UnregisterPushBuffer passes its check. -/
theorem double_registration_across_slots (m : GLRenderManager)
    (K1 K2 : Fin MAX_INFLIGHT_FRAMES) (b : Ptr) (hnone : ∀ i, b ∉ m.registry i) :
    (K1 ≠ K2 →
      ((m.RegisterPushBuffer K1 b).RegisterPushBuffer K2 b).UnregisterPushBuffer b =
        .error .foundCount) ∧
    (K1 = K2 →
      (∀ i, ((m.RegisterPushBuffer K1 b).RegisterPushBuffer K2 b).registry i =
        (m.RegisterPushBuffer K1 b).registry i) ∧
      ∃ m1, ((m.RegisterPushBuffer K1 b).RegisterPushBuffer K2 b).UnregisterPushBuffer b =
        .ok m1) := by
  constructor
  · intro hne
    apply unregister_of_not_unique
    rintro ⟨k, _, hu⟩
    have h1 : b ∈ ((m.RegisterPushBuffer K1 b).RegisterPushBuffer K2 b).registry K1 := by
      rw [register_registry, if_neg hne, register_registry, if_pos rfl]
      exact Finset.mem_insert_self _ _
    have h2 : b ∈ ((m.RegisterPushBuffer K1 b).RegisterPushBuffer K2 b).registry K2 := by
      rw [register_registry, if_pos rfl]
      exact Finset.mem_insert_self _ _
    exact hne ((hu K1 h1).trans (hu K2 h2).symm)
  · rintro rfl
    have hsame : ∀ i, ((m.RegisterPushBuffer K1 b).RegisterPushBuffer K1 b).registry i =
        (m.RegisterPushBuffer K1 b).registry i := by
      intro i
      rw [register_registry]
      by_cases hi : i = K1
      · subst hi
        simp [register_registry]
      · simp [hi]
    refine ⟨hsame, _, unregister_of_unique _ b ⟨K1, ?_, ?_⟩⟩
    · show b ∈ ((m.RegisterPushBuffer K1 b).RegisterPushBuffer K1 b).registry K1
      rw [hsame, register_registry, if_pos rfl]
      exact Finset.mem_insert_self _ _
    · intro j hj
      by_contra hne
      have hj1 : b ∈ ((m.RegisterPushBuffer K1 b).RegisterPushBuffer K1 b).registry j := hj
      rw [hsame, register_registry, if_neg hne] at hj1
      exact hnone j hj1

/-- Witness for C10: buffer 7 registered for slots 0 and 2 of a fresh manager. -/
theorem double_registration_across_slots_witness :
    ((GLRenderManager.initial.RegisterPushBuffer 0 (some 7)).RegisterPushBuffer 2
      (some 7)).UnregisterPushBuffer (some 7) = .error .foundCount :=
  (double_registration_across_slots GLRenderManager.initial 0 2 (some 7)
    (fun _ => Finset.not_mem_empty _)).1 (by decide)

/-- C10 as stated fails for K1 = K2: buffer 7 registered twice for slot 0 of a fresh
manager is found once, and UnregisterPushBuffer passes its check. -/
theorem double_registration_same_slot_passes :
    ∃ m1, ((GLRenderManager.initial.RegisterPushBuffer 0 (some 7)).RegisterPushBuffer 0
      (some 7)).UnregisterPushBuffer (some 7) = .ok m1 := by
  refine ⟨_, unregister_of_unique _ _ ⟨0, ?_, ?_⟩⟩
  · simp [register_registry]
  · intro j hj
    by_contra hne
    have hj1 : some 7 ∈ ((GLRenderManager.initial.RegisterPushBuffer 0
        (some 7)).RegisterPushBuffer 0 (some 7)).registry j := hj
    rw [register_registry, if_neg hne, register_registry, if_neg hne] at hj1
    exact Finset.not_mem_empty _ hj1

/-! ## In-flight depth and deferred deletion: claims C11 to C13 -/

/-- C11: after SetInflightFrames(f) the requested in-flight depth lies in [1, 3]; it is f
when f lies in [1, 3] and the default 3 for every other f. -/
theorem setInflightFrames_clamps (m : GLRenderManager) (f : Int) :
    1 ≤ (m.SetInflightFrames f).newInflightFrames_ ∧
    (m.SetInflightFrames f).newInflightFrames_ ≤ 3 ∧
    ((1 ≤ f ∧ f ≤ 3) → (m.SetInflightFrames f).newInflightFrames_ = f) ∧
    (¬ (1 ≤ f ∧ f ≤ 3) →
      (m.SetInflightFrames f).newInflightFrames_ = (MAX_INFLIGHT_FRAMES : Int)) ∧
    (MAX_INFLIGHT_FRAMES : Int) = 3 := by
  simp only [GLRenderManager.SetInflightFrames, MAX_INFLIGHT_FRAMES]
  by_cases h1 : f < 1 <;> by_cases h2 : f > 3 <;> simp [h1, h2]
  all_goals omega

/-- Witness for C11: a request of 0 gives the default 3, a request of 2 gives 2. -/
theorem setInflightFrames_clamps_witness :
    (GLRenderManager.initial.SetInflightFrames 0).newInflightFrames_ = 3 ∧
    (GLRenderManager.initial.SetInflightFrames 2).newInflightFrames_ = 2 :=
  ⟨(setInflightFrames_clamps GLRenderManager.initial 0).2.2.2.1 (by decide),
    (setInflightFrames_clamps GLRenderManager.initial 2).2.2.1 (by decide)⟩

/-- C12: SetInflightFrames changes only the pending depth: the depth in force, the frame
index, the frame slots, the recorded steps, the open step and the init-step list are as
before, and so is everything else in the manager. -/
theorem setInflightFrames_changes_only_pending_depth (m : GLRenderManager) (f : Int) :
    (m.SetInflightFrames f).inflightFrames_ = m.inflightFrames_ ∧
    (m.SetInflightFrames f).curFrame_ = m.curFrame_ ∧
    (m.SetInflightFrames f).frameData_ = m.frameData_ ∧
    (m.SetInflightFrames f).steps_ = m.steps_ ∧
    (m.SetInflightFrames f).heap.steps = m.heap.steps ∧
    (m.SetInflightFrames f).curRenderStep_ = m.curRenderStep_ ∧
    (m.SetInflightFrames f).initSteps_ = m.initSteps_ ∧
    (m.SetInflightFrames f).deleter_ = m.deleter_ ∧
    m.SetInflightFrames f =
      { m with newInflightFrames_ := (m.SetInflightFrames f).newInflightFrames_ } :=
  ⟨rfl, rfl, rfl, rfl, rfl, rfl, rfl, rfl, rfl⟩

/-- C13: a deletion call appends the handle at the end of the pending-deletion list of
its own type and changes nothing else: the other six lists, the init-step list, every
recorded step and command, the heap objects (the handle is not destroyed) and the
push-buffer registries are as before. -/
theorem delete_appends_to_own_list (m : GLRenderManager) (c : DeleteCall) (h : Ptr) :
    c.pending (c.run m h).deleter_ = c.pending m.deleter_ ++ [h] ∧
    (∀ c1, c1 ≠ c → c1.pending (c.run m h).deleter_ = c1.pending m.deleter_) ∧
    (c.run m h).initSteps_ = m.initSteps_ ∧
    (c.run m h).steps_ = m.steps_ ∧
    (c.run m h).heap.steps = m.heap.steps ∧
    (c.run m h).heap.shaders = m.heap.shaders ∧
    (c.run m h).heap.programs = m.heap.programs ∧
    (c.run m h).heap.buffers = m.heap.buffers ∧
    (c.run m h).heap.textures = m.heap.textures ∧
    (c.run m h).heap.inputLayouts = m.heap.inputLayouts ∧
    (c.run m h).heap.framebuffers = m.heap.framebuffers ∧
    (c.run m h).heap.pushBuffers = m.heap.pushBuffers ∧
    (c.run m h).curRenderStep_ = m.curRenderStep_ ∧
    (c.run m h).frameData_ = m.frameData_ ∧
    c.run m h = { m with deleter_ := (c.run m h).deleter_ } := by
  refine ⟨?_, ?_, ?_⟩
  · cases c <;> rfl
  · intro c1 hc
    cases c <;> cases c1 <;> first | rfl | exact absurd rfl hc
  · cases c <;> exact ⟨rfl, rfl, rfl, rfl, rfl, rfl, rfl, rfl, rfl, rfl, rfl, rfl, rfl⟩

/-- Witness for C13: a shader is created, a program listing it is queued, and the shader
is deleted: the shader is pending deletion, the queued CREATE_PROGRAM step still lists
it, and the shader object is still on the heap. -/
theorem delete_appends_to_own_list_witness :
    ∃ m1 m2, GLRenderManager.CreateProgram 3
        (GLRenderManager.initial.CreateShader 35633 "void main() {}" "vs").2 [some 0] [] [] []
        nullptr ⟨false, false, false, false⟩ = .ok (some 0, m1) ∧
      m2 = DeleteCall.DeleteShader.run m1 (some 0) ∧
      m2.deleter_.shaders = [some 0] ∧
      m2.deleter_.programs = [] ∧
      m2.initSteps_ = m1.initSteps_ ∧
      m2.initSteps_.map GLRInitStep.stepType = [.CREATE_SHADER, .CREATE_PROGRAM] ∧
      m2.heap.shaders = m1.heap.shaders ∧
      m2.heap.shaders.length = 1 :=
  ⟨_, _, rfl, rfl,
    (delete_appends_to_own_list _ DeleteCall.DeleteShader (some 0)).1,
    rfl,
    (delete_appends_to_own_list _ DeleteCall.DeleteShader (some 0)).2.2.1,
    rfl,
    (delete_appends_to_own_list _ DeleteCall.DeleteShader (some 0)).2.2.2.2.2.1,
    rfl⟩

/-! ## The uniform-location cache: claim C14 -/

/-- A name that is in the cache is answered from the cache: no device query, no change. -/
theorem getUniformLoc_cached (gl : Nat → String → Int) (p : GLRProgram) (name : String)
    (l : Int) (h : p.uniformCache_.lookup name = some l) :
    (p.GetUniformLoc gl name).loc = l ∧ (p.GetUniformLoc gl name).deviceQueries = 0 ∧
      (p.GetUniformLoc gl name).program = p := by
  simp [GLRProgram.GetUniformLoc, h]

/-- A call of GetUniformLoc keeps every entry the cache already has. -/
theorem getUniformLoc_keeps (gl : Nat → String → Int) (p : GLRProgram) (name other : String)
    (l : Int) (h : p.uniformCache_.lookup name = some l) :
    (p.GetUniformLoc gl other).program.uniformCache_.lookup name = some l := by
  unfold GLRProgram.GetUniformLoc
  cases ho : p.uniformCache_.lookup other with
  | some lo => simpa using h
  | none =>
    have hne : (name == other) = false := by
      by_contra hc
      simp only [Bool.not_eq_false, beq_iff_eq] at hc
      rw [hc, ho] at h
      exact absurd h (by simp)
    simp [List.lookup, hne, h]

/-- Entries of the cache survive any sequence of GetUniformLoc calls. -/
theorem lookups_keeps (calls : List ((Nat → String → Int) × String)) :
    ∀ (p : GLRProgram) (name : String) (l : Int), p.uniformCache_.lookup name = some l →
      (p.lookups calls).uniformCache_.lookup name = some l := by
  induction calls with
  | nil => intro p name l h; exact h
  | cons c cs ih =>
    intro p name l h
    exact ih _ name l (getUniformLoc_keeps c.1 p name c.2 l h)

/-- After a call of GetUniformLoc the name is in the cache with the location returned. -/
theorem getUniformLoc_stores (gl : Nat → String → Int) (p : GLRProgram) (name : String) :
    (p.GetUniformLoc gl name).program.uniformCache_.lookup name =
      some (p.GetUniformLoc gl name).loc := by
  unfold GLRProgram.GetUniformLoc
  cases h : p.uniformCache_.lookup name with
  | some l => simpa using h
  | none => simp [List.lookup]

/-- C14: the first GetUniformLoc call with a name that is not in the cache queries the
device once and stores the answer; whatever calls follow, a later call with the same
name returns the location of the first call, makes no device query and leaves the cache
as it is, whatever the device would answer then, the stored -1 included. -/
theorem getUniformLoc_cache_is_stable (gl gl1 : Nat → String → Int) (p : GLRProgram)
    (name : String) (calls : List ((Nat → String → Int) × String)) :
    (p.uniformCache_.lookup name = none →
      (p.GetUniformLoc gl name).deviceQueries = 1 ∧
      (p.GetUniformLoc gl name).loc = gl p.program name) ∧
    (p.GetUniformLoc gl name).program.uniformCache_.lookup name =
      some (p.GetUniformLoc gl name).loc ∧
    (((p.GetUniformLoc gl name).program.lookups calls).GetUniformLoc gl1 name).loc =
      (p.GetUniformLoc gl name).loc ∧
    (((p.GetUniformLoc gl name).program.lookups calls).GetUniformLoc gl1 name).deviceQueries =
      0 ∧
    (((p.GetUniformLoc gl name).program.lookups calls).GetUniformLoc gl1 name).program =
      (p.GetUniformLoc gl name).program.lookups calls := by
  refine ⟨?_, getUniformLoc_stores gl p name, ?_⟩
  · intro h
    simp [GLRProgram.GetUniformLoc, h]
  · exact getUniformLoc_cached gl1 _ name _
      (lookups_keeps calls _ name _ (getUniformLoc_stores gl p name))

/-- Witness for C14: on a new program the device does not know "u_tex" (-1); after a
lookup of another name, a device that would now answer 5 is not asked and -1 is
returned again. -/
theorem getUniformLoc_cache_is_stable_witness :
    (({} : GLRProgram).GetUniformLoc (fun _ _ => -1) "u_tex").deviceQueries = 1 ∧
    (({} : GLRProgram).GetUniformLoc (fun _ _ => -1) "u_tex").loc = -1 ∧
    ((((({} : GLRProgram).GetUniformLoc (fun _ _ => -1) "u_tex").program.lookups
      [(fun _ _ => 3, "u_proj")]).GetUniformLoc (fun _ _ => 5) "u_tex").loc = -1) ∧
    ((((({} : GLRProgram).GetUniformLoc (fun _ _ => -1) "u_tex").program.lookups
      [(fun _ _ => 3, "u_proj")]).GetUniformLoc (fun _ _ => 5) "u_tex").deviceQueries = 0) :=
  ⟨((getUniformLoc_cache_is_stable (fun _ _ => -1) (fun _ _ => 5) {} "u_tex"
      [(fun _ _ => 3, "u_proj")]).1 rfl).1,
    ((getUniformLoc_cache_is_stable (fun _ _ => -1) (fun _ _ => 5) {} "u_tex"
      [(fun _ _ => 3, "u_proj")]).1 rfl).2,
    (getUniformLoc_cache_is_stable (fun _ _ => -1) (fun _ _ => 5) {} "u_tex"
      [(fun _ _ => 3, "u_proj")]).2.2.1,
    (getUniformLoc_cache_is_stable (fun _ _ => -1) (fun _ _ => 5) {} "u_tex"
      [(fun _ _ => 3, "u_proj")]).2.2.2.1⟩

/-! ## BindTexture with no open step: claim C15 -/

/-- C15, as the code has it: with no step open, BindTexture with a null texture returns
without a violation, records nothing and leaves the manager as it is, whatever the slot;
with a texture it ends in the open-step violation. -/
theorem bindTexture_without_open_step (m : GLRenderManager) (slot : Int) (tex : Ptr)
    (h : m.curRenderStep_ = none) :
    (tex = nullptr → m.BindTexture slot tex = .ok m) ∧
    (tex ≠ nullptr → m.BindTexture slot tex = .error .openStep) := by
  constructor
  · rintro rfl
    simp [GLRenderManager.BindTexture, h]
  · intro ht
    cases tex with
    | none => exact absurd rfl ht
    | some a => simp [GLRenderManager.BindTexture, h, GLRenderManager.curStepIsRender]

/-- Witness for C15: on a new manager a null bind in slot 9 is a no-op and a bind of
texture 0 in slot 0 is a violation. -/
theorem bindTexture_without_open_step_witness :
    GLRenderManager.initial.BindTexture 9 nullptr = .ok GLRenderManager.initial ∧
    GLRenderManager.initial.BindTexture 0 (some 0) = .error .openStep :=
  ⟨(bindTexture_without_open_step GLRenderManager.initial 9 nullptr rfl).1 rfl,
    (bindTexture_without_open_step GLRenderManager.initial 0 (some 0) rfl).2 (by simp)⟩

/-- C15 as stated fails: on a new manager, which has no open step, binding texture 0 in
slot 0 ends in the open-step violation. -/
theorem bindTexture_with_texture_needs_open_step :
    GLRenderManager.initial.curRenderStep_ = none ∧
    GLRenderManager.initial.BindTexture 0 (some 0) = .error .openStep :=
  ⟨rfl, rfl⟩

/-! ## Handles at return time: claim C16 -/

/-- C16: CreateShader, CreateFramebuffer and (with arguments in range) CreateProgram
return the handle that the init step they append references, and the object behind it is
unpopulated at that time: device id 0, a shader neither valid nor failed; the data the
producer gave is stored as given. -/
theorem created_handles_are_unpopulated (shaderSlots : Nat) (m : GLRenderManager) :
    (∀ (stage : GLenum) (code desc : String),
      ∃ a obj, (m.CreateShader stage code desc).1 = some a ∧
        (m.CreateShader stage code desc).2.initSteps_ =
          m.initSteps_ ++ [⟨.CREATE_SHADER, .create_shader (some a) stage code⟩] ∧
        (m.CreateShader stage code desc).2.heap.shaders[a]? = some obj ∧
        obj.shader = 0 ∧ obj.valid = false ∧ obj.failed = false ∧ obj.desc = desc) ∧
    (∀ (width height : Int) (z_stencil : Bool),
      ∃ a obj, (m.CreateFramebuffer width height z_stencil).1 = some a ∧
        (m.CreateFramebuffer width height z_stencil).2.initSteps_ =
          m.initSteps_ ++ [⟨.CREATE_FRAMEBUFFER, .create_framebuffer (some a)⟩] ∧
        (m.CreateFramebuffer width height z_stencil).2.heap.framebuffers[a]? = some obj ∧
        obj.handle = 0 ∧ obj.width = width ∧ obj.height = height ∧
        obj.z_stencil_ = z_stencil) ∧
    (∀ (shaders : List Ptr) (semantics : List Semantic) (queries : List UniformLocQuery)
        (initializers : List Initializer) (locData : Ptr) (flags : GLRProgramFlags),
      (InitCall.CreateProgram shaders semantics queries initializers locData flags).inRange
        shaderSlots m →
      ∃ a obj m1, GLRenderManager.CreateProgram shaderSlots m shaders semantics queries
          initializers locData flags = .ok (some a, m1) ∧
        m1.initSteps_ = m.initSteps_ ++ [⟨.CREATE_PROGRAM, .create_program (some a)
          flags.supportDualSource shaders (castInt shaders.length)⟩] ∧
        m1.heap.programs[a]? = some obj ∧
        obj.program = 0 ∧ obj.semantics_ = semantics ∧ obj.queries_ = queries ∧
        obj.initialize_ = initializers ∧ obj.locData_ = some locData) := by
  refine ⟨?_, ?_, ?_⟩
  · intro stage code desc
    refine ⟨m.heap.shaders.length, { desc := desc }, rfl, rfl, ?_, rfl, rfl, rfl, rfl⟩
    simp [GLRenderManager.CreateShader, GLRenderManager.pushInitStep]
  · intro width height z_stencil
    refine ⟨m.heap.framebuffers.length, GLRFramebuffer.new m.caps_ width height z_stencil,
      rfl, rfl, ?_, rfl, rfl, rfl, rfl⟩
    simp [GLRenderManager.CreateFramebuffer, GLRenderManager.pushInitStep]
  · intro shaders semantics queries initializers locData flags h
    have h3 : 0 < shaders.length := h.1
    have hq1 : (queries.all fun iter => iter.name.isSome) = true :=
      List.all_eq_true.2 h.2.2.1
    have hs1 : (semantics.all fun sem => sem.attrib.isSome) = true :=
      List.all_eq_true.2 h.2.2.2
    simp only [GLRenderManager.CreateProgram, h.2.1, h3, hq1, hs1, decide_True, Bool.not_true,
      Bool.false_eq_true, if_false]
    exact ⟨_, _, _, rfl, rfl, List.getElem?_concat_length _ _, rfl, rfl, rfl, rfl, rfl⟩

/-- Witness for C16: a program of one shader with one named semantic, created on a new
manager with three shader slots. -/
theorem created_handles_are_unpopulated_witness :
    ∃ a obj m1, GLRenderManager.CreateProgram 3 GLRenderManager.initial [some 0]
        [⟨0, some "position"⟩] [] [] (some 4) ⟨true, false, false, false⟩ = .ok (some a, m1) ∧
      m1.initSteps_ = GLRenderManager.initial.initSteps_ ++
        [⟨.CREATE_PROGRAM, .create_program (some a) true [some 0] (castInt 1)⟩] ∧
      m1.heap.programs[a]? = some obj ∧
      obj.program = 0 ∧ obj.semantics_ = [⟨0, some "position"⟩] ∧ obj.queries_ = [] ∧
      obj.initialize_ = [] ∧ obj.locData_ = some (some 4) :=
  (created_handles_are_unpopulated 3 GLRenderManager.initial).2.2 [some 0]
    [⟨0, some "position"⟩] [] [] (some 4) ⟨true, false, false, false⟩
    ⟨by simp [InitCall.asSpecified], by simp⟩

/-! ## ReplacedTexture state: claim C17 -/

/-- C17: a new ReplacedTexture reports UNINITIALIZED; SetState to a state other than the
current one succeeds and makes State report it, changing nothing else; SetState to the
current state is a contract violation. -/
theorem replacedTexture_state_transitions (t : ReplacedTexture) (s : ReplacementState) :
    ReplacedTexture.fresh.State = ReplacementState.UNINITIALIZED ∧
    (s ≠ t.State →
      ∃ t1, t.SetState s = .ok t1 ∧ t1.State = s ∧ t1 = { t with state_ := s }) ∧
    (s = t.State → t.SetState s = .error .sameState) := by
  refine ⟨rfl, ?_, ?_⟩
  · intro h
    have h1 : s ≠ t.state_ := h
    exact ⟨{ t with state_ := s }, by simp [ReplacedTexture.SetState, h1], rfl, rfl⟩
  · intro h
    have h1 : s = t.state_ := h
    simp [ReplacedTexture.SetState, h1]

/-- Witness for C17: a new texture goes to POPULATED, and a second transition to
POPULATED is a violation. -/
theorem replacedTexture_state_transitions_witness :
    (∃ t1, ReplacedTexture.fresh.SetState .POPULATED = .ok t1 ∧ t1.State = .POPULATED ∧
      t1.SetState .POPULATED = .error .sameState) ∧
    ReplacedTexture.fresh.SetState .UNINITIALIZED = .error .sameState :=
  ⟨⟨{ ReplacedTexture.fresh with state_ := .POPULATED }, rfl, rfl,
      (replacedTexture_state_transitions { ReplacedTexture.fresh with state_ := .POPULATED }
        .POPULATED).2.2 rfl⟩,
    (replacedTexture_state_transitions ReplacedTexture.fresh .UNINITIALIZED).2.2 rfl⟩

/-! ## The render-thread queue: claim C18 -/

/-- Along any schedule, the tasks executed followed by the tasks still queued are the
tasks executed and queued before, followed by the tasks the schedule pushes. -/
theorem queue_run_conserves (events : List QueueEvent) :
    ∀ q : RenderThreadQueue,
      (q.run events).executed ++ (q.run events).renderThreadQueue_ =
        q.executed ++ q.renderThreadQueue_ ++ pushedTasks events := by
  induction events with
  | nil => intro q; simp [RenderThreadQueue.run, pushedTasks]
  | cons e es ih =>
    intro q
    cases e with
    | push task =>
      simp only [RenderThreadQueue.run, pushedTasks]
      rw [ih]
      simp [RenderThreadQueue.step]
    | threadFrame =>
      simp only [RenderThreadQueue.run, pushedTasks]
      rw [ih]
      cases hq : q.renderThreadQueue_ with
      | nil => simp [RenderThreadQueue.step, hq]
      | cons task rest => simp [RenderThreadQueue.step, hq]

/-- C18: for every interleaving of pushes and ThreadFrame iterations starting from the
empty queue, the tasks executed so far followed by the tasks still queued are exactly the
tasks pushed, in push order: the consumer executes the tasks in enqueue order, none
skipped or repeated, and so do their frame indices; an iteration on a non-empty queue
pops exactly the front task. -/
theorem tasks_dequeued_in_enqueue_order (events : List QueueEvent) :
    (RenderThreadQueue.empty.run events).executed ++
        (RenderThreadQueue.empty.run events).renderThreadQueue_ = pushedTasks events ∧
    (RenderThreadQueue.empty.run events).executed <+: pushedTasks events ∧
    (RenderThreadQueue.empty.run events).executed.map GLRRenderThreadTask.frame <+:
      (pushedTasks events).map GLRRenderThreadTask.frame ∧
    (∀ (q : RenderThreadQueue) (task : GLRRenderThreadTask) (rest : List GLRRenderThreadTask),
      q.renderThreadQueue_ = task :: rest →
      (q.step .threadFrame).executed = q.executed ++ [task] ∧
      (q.step .threadFrame).renderThreadQueue_ = rest) := by
  have h := queue_run_conserves events RenderThreadQueue.empty
  simp only [RenderThreadQueue.empty, List.nil_append] at h
  refine ⟨h, ⟨_, h⟩, ?_, ?_⟩
  · rw [← h, List.map_append]
    exact List.prefix_append _ _
  · intro q task rest hq
    simp [RenderThreadQueue.step, hq]

/-- Witness for C18: the producer pushes the tasks of frames 0 and 1, the consumer runs
once, the producer pushes frame 2, the consumer runs twice: the frames are executed in
the order 0, 1, 2. -/
theorem tasks_dequeued_in_enqueue_order_witness :
    (RenderThreadQueue.empty.run
      [.push ⟨[], [], 0, .PRESENT⟩, .push ⟨[], [], 1, .PRESENT⟩, .threadFrame,
        .push ⟨[], [], 2, .SYNC⟩, .threadFrame, .threadFrame]).executed.map
        GLRRenderThreadTask.frame = [0, 1, 2] ∧
    (RenderThreadQueue.empty.run
      [.push ⟨[], [], 0, .PRESENT⟩, .push ⟨[], [], 1, .PRESENT⟩, .threadFrame,
        .push ⟨[], [], 2, .SYNC⟩, .threadFrame, .threadFrame]).executed <+:
      pushedTasks
        [.push ⟨[], [], 0, .PRESENT⟩, .push ⟨[], [], 1, .PRESENT⟩, .threadFrame,
          .push ⟨[], [], 2, .SYNC⟩, .threadFrame, .threadFrame] :=
  ⟨rfl, (tasks_dequeued_in_enqueue_order _).2.1⟩

/-! ## The bounds check of BufferSubdata: claim C19 -/

/-- C19 at the failing input: on a buffer of 16 bytes, a write of 32 bytes at offset 0
does not fit (0 + 32 > 16), yet the check `offset <= buffer->size_ - size` passes, the
unsigned subtraction having wrapped, and the BUFFER_SUBDATA step is appended.  A write
that fits passes the check as the claim says. -/
theorem bufferSubdata_accepts_oversized_write :
    ¬ (0 + 32 ≤ 16) ∧
    (GLRenderManager.initial.CreateBuffer 34962 16 35048).2.heap.buffers[0]? =
      some ⟨34962, 16⟩ ∧
    (GLRenderManager.initial.CreateBuffer 34962 16 35048).2.BufferSubdata (some 0) 0 32
        (some 9) true =
      .ok ((GLRenderManager.initial.CreateBuffer 34962 16 35048).2.pushInitStep
        ⟨.BUFFER_SUBDATA, .buffer_subdata (some 0) 0 32 (some 9) true⟩) ∧
    (GLRenderManager.initial.CreateBuffer 34962 16 35048).2.BufferSubdata (some 0) 8 8
        (some 9) true =
      .ok ((GLRenderManager.initial.CreateBuffer 34962 16 35048).2.pushInitStep
        ⟨.BUFFER_SUBDATA, .buffer_subdata (some 0) 8 8 (some 9) true⟩) ∧
    (GLRenderManager.initial.CreateBuffer 34962 16 35048).2.BufferSubdata (some 0) 8 9
        (some 9) true = .error .bufferRange :=
  ⟨by decide, rfl, rfl, rfl, rfl⟩

/-! ## What UnregisterPushBuffer erases: claim C20 -/

/-- C20: when the loop of UnregisterPushBuffer ends, the buffer is in no slot's
registry, every other buffer is in a slot's registry exactly when it was before, and
nothing but the registries has changed; a call that passes its check returns this
manager. -/
theorem unregister_erases_from_every_slot (m : GLRenderManager) (b : Ptr) :
    (∀ i, b ∉ (m.unregisterLoop b).1.registry i) ∧
    (∀ c i, c ≠ b → (c ∈ (m.unregisterLoop b).1.registry i ↔ c ∈ m.registry i)) ∧
    (∀ i, (m.unregisterLoop b).1.registry i = (m.registry i).erase b) ∧
    (m.unregisterLoop b).1 = { m with frameData_ := (m.unregisterLoop b).1.frameData_ } ∧
    (∀ m1, m.UnregisterPushBuffer b = .ok m1 → m1 = (m.unregisterLoop b).1) := by
  refine ⟨?_, ?_, unregisterLoop_registry m b, rfl, ?_⟩
  · intro i
    rw [unregisterLoop_registry]
    exact Finset.not_mem_erase b _
  · intro c i hc
    rw [unregisterLoop_registry]
    simp [Finset.mem_erase, hc]
  · intro m1 h
    rw [unregister_eq] at h
    split at h
    · simp only [Except.ok.injEq] at h
      exact h.symm
    · simp at h

/-- Witness for C20: buffer 7 is registered in slots 0 and 2 and buffer 8 in slot 2;
after the loop buffer 7 is in neither slot and buffer 8 is still in slot 2, although the
check of the call fails. -/
theorem unregister_erases_from_every_slot_witness :
    ((((GLRenderManager.initial.RegisterPushBuffer 0 (some 7)).RegisterPushBuffer 2
      (some 7)).RegisterPushBuffer 2 (some 8)).UnregisterPushBuffer (some 7) =
        .error .foundCount) ∧
    (∀ i, some 7 ∉ ((((GLRenderManager.initial.RegisterPushBuffer 0 (some 7)).RegisterPushBuffer
      2 (some 7)).RegisterPushBuffer 2 (some 8)).unregisterLoop (some 7)).1.registry i) ∧
    some 8 ∈ ((((GLRenderManager.initial.RegisterPushBuffer 0 (some 7)).RegisterPushBuffer
      2 (some 7)).RegisterPushBuffer 2 (some 8)).unregisterLoop (some 7)).1.registry 2 := by
  refine ⟨?_, (unregister_erases_from_every_slot _ (some 7)).1, ?_⟩
  · apply unregister_of_not_unique
    rintro ⟨k, _, hu⟩
    have h0 := hu 0 (by simp [register_registry])
    have h2 := hu 2 (by simp [register_registry])
    exact absurd (h0.trans h2.symm) (by decide)
  · rw [(unregister_erases_from_every_slot _ (some 7)).2.1 (some 8) 2 (by simp)]
    simp [register_registry]

/-! ## Input layouts: claim C21 -/

/-- With locations in [0, 31) the mask loop never leaves 31 bits, so its reduction to 32
bits changes nothing: the loop is the plain bitwise OR. -/
theorem semanticsMask_fold (entries : List Entry) :
    ∀ acc : Nat, acc < 2 ^ 31 → (∀ e ∈ entries, 0 ≤ e.location ∧ e.location < 31) →
      entries.foldl (fun mask iter => (mask ||| (1 <<< iter.location.toNat)) % 2 ^ 32) acc =
        entries.foldl (fun mask iter => mask ||| (1 <<< iter.location.toNat)) acc ∧
      entries.foldl (fun mask iter => mask ||| (1 <<< iter.location.toNat)) acc < 2 ^ 31 := by
  induction entries with
  | nil => intro acc h _; exact ⟨rfl, h⟩
  | cons e es ih =>
    intro acc hacc hloc
    have he := hloc e (List.mem_cons_self _ _)
    have hk : e.location.toNat < 31 := by omega
    have hbit : 1 <<< e.location.toNat < 2 ^ 31 := by
      rw [Nat.one_shiftLeft]
      exact Nat.pow_lt_pow_right (by decide) hk
    have hor : acc ||| 1 <<< e.location.toNat < 2 ^ 31 := Nat.or_lt_two_pow hacc hbit
    have hmod : (acc ||| 1 <<< e.location.toNat) % 2 ^ 32 = acc ||| 1 <<< e.location.toNat :=
      Nat.mod_eq_of_lt (by omega)
    simp only [List.foldl_cons, hmod]
    exact ih _ hor (fun e1 h1 => hloc e1 (List.mem_cons_of_mem _ h1))

/-- Bit i of the bitwise OR over the entries is set exactly when it was set before or an
entry has location i. -/
theorem semanticsMask_testBit (entries : List Entry) :
    ∀ (acc i : Nat),
      (entries.foldl (fun mask iter => mask ||| (1 <<< iter.location.toNat)) acc).testBit i =
        (acc.testBit i || entries.any (fun e => decide (e.location.toNat = i))) := by
  induction entries with
  | nil => intro acc i; simp
  | cons e es ih =>
    intro acc i
    simp only [List.foldl_cons, List.any_cons]
    rw [ih, Nat.testBit_or, Nat.one_shiftLeft, Nat.testBit_two_pow, Bool.or_assoc]

open GLRenderManager in
/-- C21: for entries whose locations lie in [0, 31), CreateInputLayout returns a layout
that stores the entries unchanged and in order and whose semanticsMask_ is the bitwise OR
of 1 << location over the entries: bit i is set exactly when some entry has location i,
and the mask of no entries is 0. -/
theorem inputLayout_mask_is_or_of_locations (m : GLRenderManager) (entries : List Entry)
    (hloc : ∀ e ∈ entries, 0 ≤ e.location ∧ e.location < 31) :
    ∃ a obj, (m.CreateInputLayout entries).1 = some a ∧
      (m.CreateInputLayout entries).2.heap.inputLayouts[a]? = some obj ∧
      obj.entries = entries ∧
      obj.semanticsMask_ =
        entries.foldl (fun mask iter => mask ||| (1 <<< iter.location.toNat)) 0 ∧
      (∀ i : Nat, obj.semanticsMask_.testBit i = true ↔ ∃ e ∈ entries, e.location = i) ∧
      obj.semanticsMask_ < 2 ^ 31 ∧
      (entries = [] → obj.semanticsMask_ = 0) := by
  have hfold := semanticsMask_fold entries 0 (by decide) hloc
  refine ⟨m.heap.inputLayouts.length, ⟨entries, semanticsMaskOf entries⟩, rfl, ?_, rfl, ?_, ?_,
    ?_, ?_⟩
  · simp [CreateInputLayout, pushInitStep]
  · exact hfold.1
  · intro i
    show (semanticsMaskOf entries).testBit i = true ↔ _
    unfold semanticsMaskOf
    rw [hfold.1, semanticsMask_testBit]
    simp only [Nat.zero_testBit, Bool.false_or, List.any_eq_true, decide_eq_true_eq]
    constructor
    · rintro ⟨e, he, hi⟩
      refine ⟨e, he, ?_⟩
      have := (hloc e he).1
      omega
    · rintro ⟨e, he, hi⟩
      refine ⟨e, he, ?_⟩
      omega
  · show semanticsMaskOf entries < 2 ^ 31
    unfold semanticsMaskOf
    rw [hfold.1]
    exact hfold.2
  · rintro rfl
    rfl

/-- Witness for C21: locations 0, 3 and 3 again give the mask 9 (bits 0 and 3). -/
theorem inputLayout_mask_is_or_of_locations_witness :
    ∃ a obj,
      (GLRenderManager.initial.CreateInputLayout
        [⟨0, 3, 5126, 0, 24, 0⟩, ⟨3, 4, 5121, 1, 24, 12⟩, ⟨3, 2, 5126, 0, 24, 16⟩]).1 = some a ∧
      (GLRenderManager.initial.CreateInputLayout
        [⟨0, 3, 5126, 0, 24, 0⟩, ⟨3, 4, 5121, 1, 24, 12⟩, ⟨3, 2, 5126, 0, 24, 16⟩]).2.heap.inputLayouts[a]?
          = some obj ∧
      obj.entries = [⟨0, 3, 5126, 0, 24, 0⟩, ⟨3, 4, 5121, 1, 24, 12⟩, ⟨3, 2, 5126, 0, 24, 16⟩] ∧
      obj.semanticsMask_ = 9 := by
  obtain ⟨a, obj, h1, h2, h3, h4, _⟩ :=
    inputLayout_mask_is_or_of_locations GLRenderManager.initial
      [⟨0, 3, 5126, 0, 24, 0⟩, ⟨3, 4, 5121, 1, 24, 12⟩, ⟨3, 2, 5126, 0, 24, 16⟩]
      (by decide)
  exact ⟨a, obj, h1, h2, h3, h4.trans (by decide)⟩

/-! ## Clear: claim C22 -/

/-- C22: on a manager with an open render step, Clear with clearMask 0 succeeds, records
nothing and leaves the manager as it is, whatever the other arguments; Clear with another
clearMask succeeds and appends exactly one CLEAR command carrying clearMask, clearColor,
clearZ, clearStencil, colorMask and the scissor rectangle as passed. -/
theorem clear_records_unless_mask_is_zero (m : GLRenderManager) (p : Nat) (clearColor : Nat)
    (clearZ : FloatBits)
    (clearStencil clearMask colorMask scissorX scissorY scissorW scissorH : Int)
    (hp : m.curRenderStep_ = some p) (hr : (m.heap.steps p).stepType = GLRStepType.RENDER) :
    (clearMask = 0 →
      m.Clear clearColor clearZ clearStencil clearMask colorMask scissorX scissorY scissorW
        scissorH = .ok m) ∧
    (clearMask ≠ 0 →
      ∃ m1, m.Clear clearColor clearZ clearStencil clearMask colorMask scissorX scissorY
          scissorW scissorH = .ok m1 ∧
        (m1.heap.steps p).commands = (m.heap.steps p).commands ++
          [⟨.CLEAR, .clear ⟨clearMask, clearColor, clearZ, clearStencil, colorMask, scissorX,
            scissorY, scissorW, scissorH⟩⟩] ∧
        m1 = m.withRecorded p
          [⟨.CLEAR, .clear ⟨clearMask, clearColor, clearZ, clearStencil, colorMask, scissorX,
            scissorY, scissorW, scissorH⟩⟩] m.curProgram_) := by
  have hr1 : m.curStepIsRender = true :=
    (GLRenderManager.curStepIsRender_iff m).2 ⟨p, hp, hr⟩
  constructor
  · rintro rfl
    simp [GLRenderManager.Clear, hr1]
  · intro hne
    refine ⟨m.appendCommand p ⟨.CLEAR, .clear ⟨clearMask, clearColor, clearZ, clearStencil,
      colorMask, scissorX, scissorY, scissorW, scissorH⟩⟩, ?_, ?_, rfl⟩
    · simp [GLRenderManager.Clear, hr1, hne, GLRenderManager.pushCommand_of_open m p _ hp]
    · simp [GLRenderManager.appendCommand]

/-- Witness for C22: on the empty open render step a clear with mask 0 leaves the step
empty and a clear of colour and depth (mask 3) records one command. -/
theorem clear_records_unless_mask_is_zero_witness :
    openEmptyStep.Clear 4278190080 1065353216 0 0 15 0 0 0 0 = .ok openEmptyStep ∧
    ∃ m1, openEmptyStep.Clear 4278190080 1065353216 0 3 15 0 0 480 272 = .ok m1 ∧
      (m1.heap.steps 0).commands = (openEmptyStep.heap.steps 0).commands ++
        [⟨.CLEAR, .clear ⟨3, 4278190080, 1065353216, 0, 15, 0, 0, 480, 272⟩⟩] := by
  refine ⟨(clear_records_unless_mask_is_zero openEmptyStep 0 4278190080 1065353216 0 0 15 0 0
    0 0 rfl rfl).1 rfl, ?_⟩
  obtain ⟨m1, h1, h2, _⟩ := (clear_records_unless_mask_is_zero openEmptyStep 0 4278190080
    1065353216 0 3 15 0 0 480 272 rfl rfl).2 (by decide)
  exact ⟨m1, h1, h2⟩

/-! ## CreateProgram: claim C23 -/

/-- The conversion to `int` keeps a length below 2^31. -/
theorem castInt_of_lt (n : Nat) (h : n < 2 ^ 31) : castInt n = n := by
  unfold castInt
  have h1 : n % 2 ^ 32 = n := Nat.mod_eq_of_lt (by omega)
  rw [h1, if_pos h]

/-- C23: CreateProgram rejects an empty shader list (zero-shaders assertion) and a list
longer than the shader array of the init step (capacity assertion); whenever it appends
its CREATE_PROGRAM step, the list has between 1 and capacity shaders, the step has
num_shaders equal to their number, the shaders in argument order and support_dual_source
from the flags, and the returned program has use_clip_distance 0 to 2 from the flags and
3 to 7 false; and for a list of 1 to capacity shaders whose queries and semantics are
named it does append that step. -/
theorem createProgram_step_contents (shaderSlots : Nat) (m : GLRenderManager)
    (shaders : List Ptr) (semantics : List Semantic) (queries : List UniformLocQuery)
    (initializers : List Initializer) (locData : Ptr) (flags : GLRProgramFlags)
    (hslots : shaderSlots < 2 ^ 31) :
    (shaders = [] →
      GLRenderManager.CreateProgram shaderSlots m shaders semantics queries initializers
        locData flags = .error .zeroShaders) ∧
    (shaderSlots < shaders.length →
      GLRenderManager.CreateProgram shaderSlots m shaders semantics queries initializers
        locData flags = .error .shaderCapacity) ∧
    (∀ h m1, GLRenderManager.CreateProgram shaderSlots m shaders semantics queries
        initializers locData flags = .ok (h, m1) →
      1 ≤ shaders.length ∧ shaders.length ≤ shaderSlots ∧
      ∃ a obj, h = some a ∧
        m1.initSteps_ = m.initSteps_ ++ [⟨.CREATE_PROGRAM, .create_program (some a)
          flags.supportDualSource shaders (shaders.length : Int)⟩] ∧
        m1.heap.programs[a]? = some obj ∧
        obj.use_clip_distance = [flags.useClipDistance0, flags.useClipDistance1,
          flags.useClipDistance2, false, false, false, false, false]) ∧
    (1 ≤ shaders.length → shaders.length ≤ shaderSlots →
      (∀ iter ∈ queries, iter.name.isSome = true) →
      (∀ sem ∈ semantics, sem.attrib.isSome = true) →
      ∃ h m1, GLRenderManager.CreateProgram shaderSlots m shaders semantics queries
        initializers locData flags = .ok (h, m1)) := by
  refine ⟨?_, ?_, ?_, ?_⟩
  · rintro rfl
    simp [GLRenderManager.CreateProgram]
  · intro h
    simp [GLRenderManager.CreateProgram, h]
  · intro h m1 hok
    simp only [GLRenderManager.CreateProgram] at hok
    split at hok
    · simp at hok
    · rename_i hcap
      split at hok
      · simp at hok
      · rename_i hzero
        split at hok
        · simp at hok
        · split at hok
          · simp at hok
          · simp only [Except.ok.injEq, Prod.mk.injEq] at hok
            obtain ⟨rfl, rfl⟩ := hok
            have hcap1 : shaders.length ≤ shaderSlots := by simpa using hcap
            have hpos : 0 < shaders.length := by
              have hne : ¬ shaders = [] := by simpa using hzero
              exact List.length_pos.2 hne
            refine ⟨hpos, hcap1, m.heap.programs.length, _, rfl, ?_,
              List.getElem?_concat_length _ _, rfl⟩
            simp [GLRenderManager.pushInitStep, castInt_of_lt shaders.length (by omega)]
  · intro h1 h2 hq hs
    obtain ⟨m1, e, _⟩ := createProgram_in_range shaderSlots m shaders semantics queries
      initializers locData flags h1 h2 hq hs
    exact ⟨_, m1, e⟩

/-- Witness for C23: with three shader slots, a vertex and a fragment shader and the
flags supportDualSource and useClipDistance1 set. -/
theorem createProgram_step_contents_witness :
    ∃ m1, GLRenderManager.CreateProgram 3 GLRenderManager.initial [some 0, some 1] [] [] []
        nullptr ⟨true, false, true, false⟩ = .ok (some 0, m1) ∧
      m1.initSteps_ =
        [⟨.CREATE_PROGRAM, .create_program (some 0) true [some 0, some 1] 2⟩] ∧
      (∃ obj, m1.heap.programs[0]? = some obj ∧
        obj.use_clip_distance = [false, true, false, false, false, false, false, false]) ∧
      GLRenderManager.CreateProgram 3 GLRenderManager.initial [] [] [] [] nullptr
        ⟨true, false, true, false⟩ = .error .zeroShaders ∧
      GLRenderManager.CreateProgram 3 GLRenderManager.initial [some 0, some 1, some 2, some 3]
        [] [] [] nullptr ⟨true, false, true, false⟩ = .error .shaderCapacity := by
  have hok : GLRenderManager.CreateProgram 3 GLRenderManager.initial [some 0, some 1] [] [] []
      nullptr ⟨true, false, true, false⟩ = .ok (some 0, _) := rfl
  obtain ⟨_, _, a, obj, ha, hsteps, hobj, hclip⟩ :=
    (createProgram_step_contents 3 GLRenderManager.initial [some 0, some 1] [] [] [] nullptr
      ⟨true, false, true, false⟩ (by decide)).2.2.1 _ _ hok
  have ha0 : a = 0 := by simpa using ha.symm
  subst ha0
  exact ⟨_, hok, hsteps, ⟨obj, hobj, hclip⟩,
    (createProgram_step_contents 3 GLRenderManager.initial [] [] [] [] nullptr
      ⟨true, false, true, false⟩ (by decide)).1 rfl,
    (createProgram_step_contents 3 GLRenderManager.initial [some 0, some 1, some 2, some 3]
      [] [] [] nullptr ⟨true, false, true, false⟩ (by decide)).2.1 (by decide)⟩

/-! ## PopupMultiChoice: claim C24 -/

/-- An exact result that is an `int` is the result of the 32-bit operation. -/
theorem wrapInt_of_int (x : Int) (h1 : INT_MIN ≤ x) (h2 : x ≤ INT_MAX) : wrapInt x = x := by
  unfold wrapInt
  unfold INT_MIN at h1
  unfold INT_MAX at h2
  omega

/-- C24, as the code has it: for every initial value, every minVal and every
numChoices >= 1 for which numChoices + minVal does not overflow int, the constructor
leaves the selection in [minVal, minVal + numChoices - 1]: a value in that range is
unchanged, a value above it becomes minVal + numChoices - 1, a value below it becomes
minVal. -/
theorem popupMultiChoice_clamps_selection (value minVal numChoices : Int)
    (hmin : INT_MIN ≤ minVal) (hnum : 1 ≤ numChoices)
    (hsum : minVal + numChoices ≤ INT_MAX) :
    minVal ≤ (PopupMultiChoice.new value minVal numChoices).pointee ∧
    (PopupMultiChoice.new value minVal numChoices).pointee ≤ minVal + numChoices - 1 ∧
    (minVal ≤ value → value ≤ minVal + numChoices - 1 →
      (PopupMultiChoice.new value minVal numChoices).pointee = value) ∧
    (minVal + numChoices - 1 < value →
      (PopupMultiChoice.new value minVal numChoices).pointee = minVal + numChoices - 1) ∧
    (value < minVal → (PopupMultiChoice.new value minVal numChoices).pointee = minVal) := by
  have htop : wrapInt (numChoices + minVal) = numChoices + minVal :=
    wrapInt_of_int _ (by omega) (by omega)
  have htop1 : wrapInt (numChoices + minVal - 1) = numChoices + minVal - 1 :=
    wrapInt_of_int _ (by omega) (by omega)
  simp only [PopupMultiChoice.new, htop, htop1]
  refine ⟨?_, ?_, ?_, ?_, ?_⟩
  · split_ifs <;> omega
  · split_ifs <;> omega
  · intro h1 h2
    split_ifs <;> omega
  · intro h1
    split_ifs <;> omega
  · intro h1
    split_ifs <;> omega

/-- Witness for C24: four choices from 1; 7 becomes 4, -2 becomes 1, 3 stays 3. -/
theorem popupMultiChoice_clamps_selection_witness :
    (PopupMultiChoice.new 7 1 4).pointee = 1 + 4 - 1 ∧
    (PopupMultiChoice.new (-2) 1 4).pointee = 1 ∧
    (PopupMultiChoice.new 3 1 4).pointee = 3 :=
  ⟨(popupMultiChoice_clamps_selection 7 1 4 (by decide) (by decide) (by decide)).2.2.2.1
      (by decide),
    (popupMultiChoice_clamps_selection (-2) 1 4 (by decide) (by decide) (by decide)).2.2.2.2
      (by decide),
    (popupMultiChoice_clamps_selection 3 1 4 (by decide) (by decide) (by decide)).2.2.1
      (by decide) (by decide)⟩

/-- C24 as stated fails: with minVal = 2147483646 and numChoices = 5 the sum
numChoices + minVal overflows int; the value 2147483647, which lies in the range from
minVal to minVal + numChoices - 1, is not left unchanged but becomes 2147483646. -/
theorem popupMultiChoice_overflow_changes_valid_selection :
    (1 : Int) ≤ 5 ∧
    INT_MIN ≤ 2147483646 ∧ (2147483647 : Int) ≤ INT_MAX ∧
    (2147483646 : Int) ≤ 2147483647 ∧ (2147483647 : Int) ≤ 2147483646 + 5 - 1 ∧
    wrapInt (5 + 2147483646) = -2147483645 ∧
    (PopupMultiChoice.new 2147483647 2147483646 5).pointee = 2147483646 ∧
    (PopupMultiChoice.new 2147483647 2147483646 5).pointee ≠ 2147483647 := by
  decide

end GLRender
